import Mathlib

/-!
Verification of the Schoolter deterministic synthetic-enrichment pipeline.

The JavaScript sources embedded below are:
  server/pipeline/extract.js    (pipeline v2: mulberry32 PRNG, the six
                                 synthetic generators, the enrichment
                                 orchestrator, the output writer),
  the second pipeline variant of extract.js (the London + Kent variant:
                                 its admissions, demographics and
                                 performance generators differ),
  server/db/export.js           (the DB-export generators).

Modeling conventions.  JavaScript numbers are modeled as exact rationals;
Math.floor, Math.round, Math.max, Math.min and Number.toFixed are modeled
by their exact counterparts (Math.round and toFixed round half up, as the
ECMAScript specification prescribes for ties).  The mulberry32 PRNG state
is a natural number below 2 ^ 32 and all of its integer arithmetic is
reduced modulo 2 ^ 32, matching Math.imul and the 32-bit JS bitwise
operators.  Absent or null JS fields become Option values.  Network
fetches performed by the orchestrator are modeled by an explicit oracle
argument recording what each fetch would return.
-/

-- Restore kernel-evaluability of rational arithmetic so that concrete
-- runs of the embedded generators can be checked by decide.
attribute [local semireducible] Rat.mul Rat.add Rat.sub Rat.inv Rat.ofScientific

/-- 2 ^ 32, the modulus of all mulberry32 arithmetic. -/
def pow32 : Nat := 2 ^ 32

/-- One step of the mulberry32 generator from extract.js (seedRandom):
returns the 32-bit output word together with the new internal state t.
The JS code keeps the state as a signed 32-bit value; since every use
reduces it modulo 2 ^ 32 (Math.imul, the bitwise operators and the final
unsigned shift), the unsigned residue tracked here carries the same
information. -/
def mb32 (t : Nat) : Nat × Nat :=
  let t1 := ((Nat.xor t (t >>> 15)) * (t ||| 1)) % pow32
  let inner := ((Nat.xor t1 (t1 >>> 7)) * (t1 ||| 61)) % pow32
  let t2 := Nat.xor t1 ((t1 + inner) % pow32)
  (Nat.xor t2 (t2 >>> 14), t2)

/-- The float in [0, 1) produced by one rng() call, with the new state. -/
def randQ (t : Nat) : ℚ × Nat :=
  let p := mb32 t
  ((p.1 : ℚ) / (pow32 : ℚ), p.2)

/-- JS Math.round: round half toward positive infinity. -/
def jsRound (q : ℚ) : ℚ := ((⌊q + 1/2⌋ : ℤ) : ℚ)

/-- JS Number.prototype.toFixed(d), reparsed by parseFloat: round to the
nearest multiple of 10 ^ (-d), ties to the larger value. -/
def jsToFixed (d : ℕ) (q : ℚ) : ℚ := ((⌊q * 10 ^ d + 1/2⌋ : ℤ) : ℚ) / 10 ^ d

/-- seededInt from extract.js: floor(rng() * (max - min + 1)) + min. -/
def seededInt (t : Nat) (lo hi : ℤ) : ℚ × Nat :=
  let p := randQ t
  (((⌊p.1 * ((hi : ℚ) - (lo : ℚ) + 1)⌋ + lo : ℤ) : ℚ), p.2)

/-- seededFloat from extract.js:
parseFloat((rng() * (max - min) + min).toFixed(d)). -/
def seededFloat (t : Nat) (lo hi : ℚ) (d : ℕ) : ℚ × Nat :=
  let p := randQ t
  (jsToFixed d (p.1 * (hi - lo) + lo), p.2)

/-- seededPick from extract.js: arr[floor(rng() * arr.length)]. -/
def seededPick {α : Type} (t : Nat) (l : List α) (dflt : α) : α × Nat :=
  let p := randQ t
  (l.getD (⌊p.1 * (l.length : ℚ)⌋).toNat dflt, p.2)

-- ── String helpers modeling the JS string operations used ───────────

/-- Characters matched by the JS regex class for whitespace, restricted
to the forms that occur in the data. -/
def jsIsSpace (c : Char) : Bool := c = ' ' || c = '\t' || c = '\n' || c = '\r'

/-- JS String.prototype.split(whitespace-run regex): separators are
maximal whitespace runs; a leading or trailing run contributes one empty
token, and the empty string yields a single empty token. -/
def jsSplitWs (s : String) : List String :=
  if s.isEmpty then [""]
  else
    (if jsIsSpace s.front then [""] else [])
      ++ (s.split (fun c => jsIsSpace c)).filter (fun x => ¬ x.isEmpty)
      ++ (if jsIsSpace s.back then [""] else [])

/-- Numeric value of a list of decimal digit characters. -/
def digitsVal (l : List Char) : ℤ :=
  l.foldl (fun a c => a * 10 + ((c.toNat - 48 : ℕ) : ℤ)) 0

/-- JS parseInt on a string: skip leading whitespace, optional sign,
then the maximal run of decimal digits; none models NaN. -/
def jsParseInt (s : String) : Option ℤ :=
  let cs := s.toList.dropWhile (fun c => jsIsSpace c)
  match cs with
  | '-' :: rest =>
      let digits := rest.takeWhile Char.isDigit
      if digits.isEmpty then none else some (-(digitsVal digits))
  | '+' :: rest =>
      let digits := rest.takeWhile Char.isDigit
      if digits.isEmpty then none else some (digitsVal digits)
  | _ =>
      let digits := cs.takeWhile Char.isDigit
      if digits.isEmpty then none else some (digitsVal digits)

/-- Decimal string of an integer-valued rational (used where JS converts
a number drawn by seededInt to a string). -/
def qIntStr (q : ℚ) : String := toString q.num

/-- JS String(n).padStart(2, "0") for the small positive integers that
occur in dates. -/
def pad2 (q : ℚ) : String := if q.num < 10 then "0" ++ toString q.num else toString q.num

/-- JS String.prototype.toLowerCase (ASCII case mapping, which covers
every string this pipeline lowercases). -/
def jsToLower (s : String) : String := String.mk (s.toList.map Char.toLower)

def charsStartWith : List Char → List Char → Bool
  | [], _ => true
  | _ :: _, [] => false
  | a :: as, b :: bs => a == b && charsStartWith as bs

def charsContainAux (pat : List Char) : List Char → Bool
  | [] => pat.isEmpty
  | c :: rest => charsStartWith pat (c :: rest) || charsContainAux pat rest

/-- JS String.prototype.includes. -/
def strContains (s pat : String) : Bool := charsContainAux pat.toList s.toList

/-- Keep only lowercase letters and whitespace (the JS replace of the
class complementing lowercase letters and whitespace by nothing). -/
def keepLowerWs (s : String) : String :=
  String.mk (s.toList.filter (fun c => ('a' ≤ c && c ≤ 'z') || jsIsSpace c))

/-- Remove all whitespace characters. -/
def stripWs (s : String) : String :=
  String.mk (s.toList.filter (fun c => ¬ jsIsSpace c))

-- ── Covariate tables ────────────────────────────────────────────────

/-- BOROUGH_TIER from extract.js (pipeline v2): borough affluence tiers,
higher is more affluent. -/
def BOROUGH_TIER : List (String × ℚ) :=
  [("Kensington and Chelsea", 5), ("Westminster", 5), ("Richmond upon Thames", 5),
   ("City of London", 5), ("Camden", 4), ("Hammersmith and Fulham", 4),
   ("Kingston upon Thames", 4), ("Wandsworth", 4), ("Merton", 4),
   ("Barnet", 4), ("Bromley", 4), ("Sutton", 4), ("Harrow", 3),
   ("Hounslow", 3), ("Ealing", 3), ("Bexley", 3), ("Hillingdon", 3),
   ("Havering", 3), ("Redbridge", 3), ("Enfield", 3), ("Brent", 3),
   ("Greenwich", 3), ("Lewisham", 3), ("Southwark", 3), ("Lambeth", 2),
   ("Haringey", 2), ("Waltham Forest", 2), ("Croydon", 2), ("Islington", 2),
   ("Hackney", 2), ("Tower Hamlets", 2), ("Newham", 1),
   ("Barking and Dagenham", 1)]

/-- BOROUGH_TIER lookup with the JS default of 3 for unmapped boroughs
(no table value is zero, so the JS falsy-default coincides with getD). -/
def boroughTier (b : String) : ℚ := (BOROUGH_TIER.lookup b).getD 3

/-- BOROUGH_TIER from the London + Kent pipeline variant. -/
def P4_BOROUGH_TIER : List (String × ℚ) :=
  BOROUGH_TIER ++
  [("Kent", 3), ("Sevenoaks", 5), ("Tunbridge Wells", 4), ("Tonbridge and Malling", 4),
   ("Canterbury", 3), ("Maidstone", 3), ("Dartford", 3), ("Gravesham", 2),
   ("Ashford", 3), ("Dover", 2), ("Folkestone and Hythe", 2), ("Swale", 2),
   ("Thanet", 2), ("Medway", 2)]

def p4BoroughTier (b : String) : ℚ := (P4_BOROUGH_TIER.lookup b).getD 3

/-- BOROUGH_TIER from export.js (different scale: 1 = most affluent). -/
def EXPORT_BOROUGH_TIER : List (String × ℚ) :=
  [("Westminster", 1), ("Kensington and Chelsea", 1), ("Camden", 1), ("Richmond upon Thames", 1),
   ("Wandsworth", 2), ("Hammersmith and Fulham", 2), ("Islington", 2), ("Southwark", 2), ("Lambeth", 2),
   ("Barnet", 2), ("Bromley", 2), ("Kingston upon Thames", 2), ("Merton", 2), ("Sutton", 2),
   ("Greenwich", 3), ("Lewisham", 3), ("Hackney", 3), ("Tower Hamlets", 3), ("Newham", 3),
   ("Brent", 3), ("Ealing", 3), ("Haringey", 3), ("Hounslow", 3), ("Enfield", 3),
   ("Redbridge", 3), ("Waltham Forest", 3), ("Croydon", 3), ("Harrow", 3), ("Hillingdon", 3),
   ("Bexley", 3), ("Havering", 3), ("Barking and Dagenham", 4), ("City of London", 1),
   ("Sevenoaks", 1), ("Tonbridge and Malling", 2), ("Tunbridge Wells", 2), ("Maidstone", 3),
   ("Dartford", 3), ("Gravesham", 3), ("Medway", 3), ("Canterbury", 2), ("Dover", 3),
   ("Folkestone and Hythe", 3), ("Thanet", 4), ("Ashford", 3), ("Swale", 3), ("Kent", 3)]

def exportBoroughTier (b : String) : ℚ := (EXPORT_BOROUGH_TIER.lookup b).getD 3

/-- OFSTED_MULTIPLIER from extract.js (identical in the Kent variant),
with the JS falsy default of 1.0 for unmapped ratings. -/
def OFSTED_MULTIPLIER : List (String × ℚ) :=
  [("Outstanding", 1.15), ("Good", 1.0), ("Requires Improvement", 0.82),
   ("Inadequate", 0.68), ("N/A", 1.05)]

def ofstedMultiplier (r : String) : ℚ := (OFSTED_MULTIPLIER.lookup r).getD 1.0

/-- KENT_DISTRICTS from the London + Kent pipeline variant. -/
def KENT_DISTRICTS : List String :=
  ["Kent", "Ashford", "Canterbury", "Dartford", "Dover", "Folkestone and Hythe",
   "Gravesham", "Maidstone", "Medway", "Sevenoaks", "Swale", "Thanet",
   "Tonbridge and Malling", "Tunbridge Wells"]

-- ── Data model: the canonical school record and its sub-records ─────

/-- A base school record as produced by transformGIAS in extract.js (or
loaded from the static fallback file).  Null / missing string fields are
modeled as the empty string, matching the JS falsy checks applied to
them; null numerics are Option values. -/
structure School where
  id : ℤ
  urn : String
  name : String
  borough : String
  type : String
  phase : String
  gender : String
  religiousCharacter : String
  ofstedRating : String
  ageRange : String
  pupils : ℤ
  address : String
  postcode : String
  lat : Option ℚ
  lng : Option ℚ
  hasSixthForm : Bool
  fundingType : String
  sector : String
  website : String
deriving DecidableEq

/-- The eight Parent View percentages of the synthetic Ofsted record. -/
structure ParentView where
  recommend : ℚ
  happy : ℚ
  safe : ℚ
  bullying : ℚ
  behaviour : ℚ
  progress : ℚ
  teaching : ℚ
  leadership : ℚ
deriving DecidableEq

/-- The ofsted sub-record (both the synthetic and the real-fetch shape). -/
structure Ofsted where
  rating : String
  date : Option String
  previousRating : Option String
  previousDate : Option String
  report : Option String
  parentView : Option ParentView
deriving DecidableEq

/-- KS2 block of the extract.js performance generator. -/
structure KS2 where
  readingExpected : ℚ
  mathsExpected : ℚ
  writingExpected : ℚ
  combinedExpected : ℚ
  year : String
deriving DecidableEq

/-- KS4 block of the extract.js performance generator (ebacc_entry and
ebacc_avg keep their snake_case spirit via camelCase names). -/
structure KS4 where
  attainment8 : ℚ
  progress8 : ℚ
  ebaccEntry : ℚ
  ebaccAvg : ℚ
  grade5EnMa : ℚ
  year : String
deriving DecidableEq

/-- KS5 block of the extract.js performance generator. -/
structure KS5 where
  averagePointScore : ℚ
  aabOrHigher : ℚ
  year : String
deriving DecidableEq

structure Performance where
  ks2 : Option KS2
  ks4 : Option KS4
  ks5 : Option KS5
deriving DecidableEq

structure Applications where
  first : ℚ
  second : ℚ
  third : ℚ
  total : ℚ
deriving DecidableEq

/-- The admissions sub-record of extract.js (pipeline v2; it has no
catchment or criteria fields). -/
structure AdmissionsX where
  capacity : ℚ
  applications : Applications
  offers : ℚ
  oversubscribed : Bool
  lastDistanceOffered : Option ℚ
  year : String
deriving DecidableEq

structure Ethnicities where
  white : ℚ
  asian : ℚ
  black : ℚ
  mixed : ℚ
  other : ℚ
deriving DecidableEq

structure Demographics where
  fsmPercent : ℚ
  ealPercent : ℚ
  senPercent : ℚ
  ethnicities : Ethnicities
deriving DecidableEq

/-- Contact sub-record; the synthetic generator fills every field, the
real-scrape path may leave fields null, hence the Options. -/
structure ContactInfo where
  phone : Option String
  email : Option String
  headteacher : Option String
deriving DecidableEq

structure Finances where
  totalIncome : ℚ
  perPupilFunding : ℚ
  teacherCount : ℚ
  pupilTeacherRatio : ℚ
deriving DecidableEq

/-- The per-group provenance tags recorded in _dataSources. -/
structure DataSources where
  ofsted : String
  performance : String
  contact : String
  admissions : String
  demographics : String
  finances : String
deriving DecidableEq

/-- A fully enriched school as returned by enrichSchool: the base record
is spread unchanged and the sub-records are attached.  The performance
field is an Option because in the real-fetch case the code sets only the
source tag and never assigns enriched.performance. -/
structure Enriched where
  base : School
  ofsted : Ofsted
  performance : Option Performance
  contact : ContactInfo
  admissions : AdmissionsX
  demographics : Demographics
  finances : Finances
  dataSources : DataSources
deriving DecidableEq

/-- An output record as written by writeOutput: the rest-spread
const (dropping _dataSources, keeping everything else). -/
structure CleanSchool where
  base : School
  ofsted : Ofsted
  performance : Option Performance
  contact : ContactInfo
  admissions : AdmissionsX
  demographics : Demographics
  finances : Finances
deriving DecidableEq

-- ── extract.js synthetic generators ─────────────────────────────────

def RATINGS : List String := ["Outstanding", "Good", "Requires Improvement", "Inadequate"]

/-- JS Array.prototype.indexOf. -/
def jsIndexOf (l : List String) (x : String) : ℤ :=
  match l.findIdx? (fun y => y == x) with
  | some i => (i : ℤ)
  | none => -1

/-- generateSyntheticOfsted from extract.js.  Draw order matches the
source: previous-rating shift, six date components, then the eight
Parent View percentages. -/
def generateSyntheticOfsted (s : School) (t : Nat) : Ofsted × Nat :=
  if s.sector = "Private" then
    ({ rating := "N/A", date := none, previousRating := none, previousDate := none,
       report := none, parentView := none }, t)
  else
    let currentRating := if s.ofstedRating = "" then "Good" else s.ofstedRating
    let ratingIdx := jsIndexOf RATINGS currentRating
    let pPrev : ℚ × Nat :=
      if ratingIdx = -1 then seededInt t 0 1
      else
        let q := seededPick t ([0, 0, 0, 1, -1] : List ℚ) 0
        (max 0 (min 3 ((ratingIdx : ℚ) + q.1)), q.2)
    let prevIdx := pPrev.1
    let pLY := seededInt pPrev.2 2020 2024
    let lastYear := pLY.1
    let pLM := seededInt pLY.2 1 12
    let lastMonth := pLM.1
    let pLD := seededInt pLM.2 1 28
    let lastDay := pLD.1
    let pPY := seededInt pLD.2 3 5
    let prevYear := lastYear - pPY.1
    let pPM := seededInt pPY.2 1 12
    let prevMonth := pPM.1
    let pPD := seededInt pPM.2 1 28
    let prevDay := pPD.1
    let lastDate := qIntStr lastYear ++ "-" ++ pad2 lastMonth ++ "-" ++ pad2 lastDay
    let prevDate := qIntStr prevYear ++ "-" ++ pad2 prevMonth ++ "-" ++ pad2 prevDay
    let mult := ofstedMultiplier currentRating
    let urnS := if s.urn = "" then toString s.id else s.urn
    let pA := seededInt pPD.2 78 98
    let recommend := min 100 (max 40 (jsRound (pA.1 * mult)))
    let pB := seededInt pA.2 75 96
    let happy := min 100 (max 40 (jsRound (pB.1 * mult)))
    let pC := seededInt pB.2 82 99
    let safe := min 100 (max 40 (jsRound (pC.1 * mult)))
    let pD := seededInt pC.2 70 95
    let bullying := min 100 (max 40 (jsRound (pD.1 * mult)))
    let pE := seededInt pD.2 74 96
    let behaviour := min 100 (max 40 (jsRound (pE.1 * mult)))
    let pF := seededInt pE.2 72 95
    let progress := min 100 (max 40 (jsRound (pF.1 * mult)))
    let pG := seededInt pF.2 73 96
    let teaching := min 100 (max 40 (jsRound (pG.1 * mult)))
    let pH := seededInt pG.2 76 97
    let leadership := min 100 (max 40 (jsRound (pH.1 * mult)))
    ({ rating := currentRating,
       date := some lastDate,
       previousRating := some (RATINGS.getD prevIdx.num.toNat ""),
       previousDate := some prevDate,
       report := some ("https://reports.ofsted.gov.uk/provider/21/" ++ urnS),
       parentView := some { recommend := recommend, happy := happy, safe := safe,
                            bullying := bullying, behaviour := behaviour,
                            progress := progress, teaching := teaching,
                            leadership := leadership } }, pH.2)

/-- generateSyntheticPerformance from extract.js. -/
def generateSyntheticPerformance (s : School) (t : Nat) : Performance × Nat :=
  let phase := s.phase
  let isPrivate := s.sector = "Private"
  let tier := boroughTier s.borough
  let mult := ofstedMultiplier s.ofstedRating
  let tierBonus := (tier - 1) * 2
  if phase = "Nursery" ∨ phase = "Reception" then
    ({ ks2 := none, ks4 := none, ks5 := none }, t)
  else
    let ks2P : Option KS2 × Nat :=
      if phase = "Primary" ∨ phase = "All-Through" ∨ phase = "Special" then
        let p1 := seededInt t 60 85
        let baseReading := min 100 (jsRound ((p1.1 + tierBonus) * mult))
        let p2 := seededInt p1.2 58 84
        let baseMaths := min 100 (jsRound ((p2.1 + tierBonus) * mult))
        let p3 := seededInt p2.2 56 82
        let baseWriting := min 100 (jsRound ((p3.1 + tierBonus) * mult))
        let combined := min 100 (jsRound ((baseReading + baseMaths + baseWriting) / 3 * 0.88))
        if isPrivate then
          let q1 := seededInt p3.2 5 15
          let q2 := seededInt q1.2 5 15
          let q3 := seededInt q2.2 5 15
          let q4 := seededInt q3.2 8 18
          (some { readingExpected := min 100 (baseReading + q1.1),
                  mathsExpected := min 100 (baseMaths + q2.1),
                  writingExpected := min 100 (baseWriting + q3.1),
                  combinedExpected := min 100 (combined + q4.1),
                  year := "2024" }, q4.2)
        else
          (some { readingExpected := baseReading, mathsExpected := baseMaths,
                  writingExpected := baseWriting, combinedExpected := combined,
                  year := "2024" }, p3.2)
      else (none, t)
    let t1 := ks2P.2
    let ks4P : Option KS4 × Nat :=
      if phase = "Secondary" ∨ phase = "All-Through" ∨ phase = "16 Plus" then
        let p1 := seededFloat t1 38 58 1
        let baseA8 := p1.1 + tierBonus * 1.2
        let p2 := seededFloat p1.2 (-0.3) 0.6 2
        let baseP8 := p2.1
        let p3 := seededInt p2.2 20 65
        let ebaccEntryV := p3.1 + tierBonus
        let p4 := seededFloat p3.2 3.2 5.8 1
        let ebaccAvgV := p4.1
        let p5 := seededInt p4.2 30 65
        let grade5 := p5.1 + tierBonus
        if isPrivate then
          let q1 := seededFloat p5.2 55 75 1
          let q2 := seededFloat q1.2 0.1 0.8 2
          let q3 := seededInt q2.2 60 95
          let q4 := seededFloat q3.2 5.5 7.5 1
          let q5 := seededInt q4.2 65 92
          (some { attainment8 := min 90 q1.1, progress8 := q2.1,
                  ebaccEntry := min 100 q3.1, ebaccAvg := q4.1,
                  grade5EnMa := min 100 q5.1, year := "2024" }, q5.2)
        else
          (some { attainment8 := jsToFixed 1 (min 80 (baseA8 * mult)),
                  progress8 := jsToFixed 2 (baseP8 * mult),
                  ebaccEntry := min 100 (jsRound (ebaccEntryV * mult)),
                  ebaccAvg := jsToFixed 1 (min 8 (ebaccAvgV * mult)),
                  grade5EnMa := min 100 (jsRound (grade5 * mult)),
                  year := "2024" }, p5.2)
      else (none, t1)
    let t2 := ks4P.2
    let ks5P : Option KS5 × Nat :=
      if s.hasSixthForm ∧ (phase = "Secondary" ∨ phase = "All-Through" ∨ phase = "16 Plus") then
        if isPrivate then
          let q1 := seededFloat t2 38 48 1
          let q2 := seededInt q1.2 25 55
          (some { averagePointScore := q1.1, aabOrHigher := q2.1, year := "2024" }, q2.2)
        else
          let p1 := seededFloat t2 28 42 1
          let baseAPS := p1.1 + tierBonus * 0.5
          let p2 := seededInt p1.2 8 30
          (some { averagePointScore := jsToFixed 1 (min 50 (baseAPS * mult)),
                  aabOrHigher := min 60 (jsRound (p2.1 * mult + tierBonus)),
                  year := "2024" }, p2.2)
      else (none, t2)
    ({ ks2 := ks2P.1, ks4 := ks4P.1, ks5 := ks5P.1 }, ks5P.2)

/-- The KS2 block of generateSyntheticPerformance, factored out over an
arbitrary entry state (definitionally the corresponding let block). -/
def perfKS2 (s : School) (t : Nat) : Option KS2 × Nat :=
  let phase := s.phase
  let isPrivate := s.sector = "Private"
  let tier := boroughTier s.borough
  let mult := ofstedMultiplier s.ofstedRating
  let tierBonus := (tier - 1) * 2
  if phase = "Primary" ∨ phase = "All-Through" ∨ phase = "Special" then
    let p1 := seededInt t 60 85
    let baseReading := min 100 (jsRound ((p1.1 + tierBonus) * mult))
    let p2 := seededInt p1.2 58 84
    let baseMaths := min 100 (jsRound ((p2.1 + tierBonus) * mult))
    let p3 := seededInt p2.2 56 82
    let baseWriting := min 100 (jsRound ((p3.1 + tierBonus) * mult))
    let combined := min 100 (jsRound ((baseReading + baseMaths + baseWriting) / 3 * 0.88))
    if isPrivate then
      let q1 := seededInt p3.2 5 15
      let q2 := seededInt q1.2 5 15
      let q3 := seededInt q2.2 5 15
      let q4 := seededInt q3.2 8 18
      (some { readingExpected := min 100 (baseReading + q1.1),
              mathsExpected := min 100 (baseMaths + q2.1),
              writingExpected := min 100 (baseWriting + q3.1),
              combinedExpected := min 100 (combined + q4.1),
              year := "2024" }, q4.2)
    else
      (some { readingExpected := baseReading, mathsExpected := baseMaths,
              writingExpected := baseWriting, combinedExpected := combined,
              year := "2024" }, p3.2)
  else (none, t)

/-- The KS4 block of generateSyntheticPerformance, factored out over an
arbitrary entry state. -/
def perfKS4 (s : School) (t1 : Nat) : Option KS4 × Nat :=
  let phase := s.phase
  let isPrivate := s.sector = "Private"
  let tier := boroughTier s.borough
  let mult := ofstedMultiplier s.ofstedRating
  let tierBonus := (tier - 1) * 2
  if phase = "Secondary" ∨ phase = "All-Through" ∨ phase = "16 Plus" then
    let p1 := seededFloat t1 38 58 1
    let baseA8 := p1.1 + tierBonus * 1.2
    let p2 := seededFloat p1.2 (-0.3) 0.6 2
    let baseP8 := p2.1
    let p3 := seededInt p2.2 20 65
    let ebaccEntryV := p3.1 + tierBonus
    let p4 := seededFloat p3.2 3.2 5.8 1
    let ebaccAvgV := p4.1
    let p5 := seededInt p4.2 30 65
    let grade5 := p5.1 + tierBonus
    if isPrivate then
      let q1 := seededFloat p5.2 55 75 1
      let q2 := seededFloat q1.2 0.1 0.8 2
      let q3 := seededInt q2.2 60 95
      let q4 := seededFloat q3.2 5.5 7.5 1
      let q5 := seededInt q4.2 65 92
      (some { attainment8 := min 90 q1.1, progress8 := q2.1,
              ebaccEntry := min 100 q3.1, ebaccAvg := q4.1,
              grade5EnMa := min 100 q5.1, year := "2024" }, q5.2)
    else
      (some { attainment8 := jsToFixed 1 (min 80 (baseA8 * mult)),
              progress8 := jsToFixed 2 (baseP8 * mult),
              ebaccEntry := min 100 (jsRound (ebaccEntryV * mult)),
              ebaccAvg := jsToFixed 1 (min 8 (ebaccAvgV * mult)),
              grade5EnMa := min 100 (jsRound (grade5 * mult)),
              year := "2024" }, p5.2)
  else (none, t1)

/-- The KS5 block of generateSyntheticPerformance, factored out over an
arbitrary entry state. -/
def perfKS5 (s : School) (t2 : Nat) : Option KS5 × Nat :=
  let phase := s.phase
  let isPrivate := s.sector = "Private"
  let tier := boroughTier s.borough
  let mult := ofstedMultiplier s.ofstedRating
  let tierBonus := (tier - 1) * 2
  if s.hasSixthForm ∧ (phase = "Secondary" ∨ phase = "All-Through" ∨ phase = "16 Plus") then
    if isPrivate then
      let q1 := seededFloat t2 38 48 1
      let q2 := seededInt q1.2 25 55
      (some { averagePointScore := q1.1, aabOrHigher := q2.1, year := "2024" }, q2.2)
    else
      let p1 := seededFloat t2 28 42 1
      let baseAPS := p1.1 + tierBonus * 0.5
      let p2 := seededInt p1.2 8 30
      (some { averagePointScore := jsToFixed 1 (min 50 (baseAPS * mult)),
              aabOrHigher := min 60 (jsRound (p2.1 * mult + tierBonus)),
              year := "2024" }, p2.2)
  else (none, t2)

/-- generateSyntheticAdmissions from extract.js (pipeline v2: no
catchment or criteria are generated in this variant). -/
def generateSyntheticAdmissions (s : School) (t : Nat) : AdmissionsX × Nat :=
  let phase := s.phase
  let pupils : ℚ := if s.pupils = 0 then 200 else (s.pupils : ℚ)
  let tier := boroughTier s.borough
  let mult := ofstedMultiplier s.ofstedRating
  if phase = "Nursery" then
    let p1 := seededFloat t 0.9 1.1 2
    let capacity := max 20 (jsRound (pupils * p1.1))
    let p2 := seededFloat p1.2 1.2 2.5 1
    let totalApps := jsRound (capacity * p2.1)
    let pDist : Option ℚ × Nat :=
      if totalApps > capacity then
        let q := seededFloat p2.2 0.3 2.0 2
        (some q.1, q.2)
      else (none, p2.2)
    ({ capacity := capacity,
       applications := { first := jsRound (totalApps * 0.55),
                         second := jsRound (totalApps * 0.28),
                         third := jsRound (totalApps * 0.17),
                         total := totalApps },
       offers := capacity,
       oversubscribed := decide (totalApps > capacity),
       lastDistanceOffered := pDist.1,
       year := "2024" }, pDist.2)
  else
    let intakeRaw : ℚ :=
      if phase = "Primary" then jsRound (pupils / 7)
      else if phase = "Secondary" then jsRound (pupils / (if s.hasSixthForm then 7 else 5))
      else if phase = "All-Through" then jsRound (pupils / 14)
      else if phase = "Reception" then jsRound (pupils / 7)
      else jsRound (pupils / 5)
    let intakePerYear := max 15 intakeRaw
    let demandMultiplier := mult * (1 + (tier - 1) * 0.15)
    let p1 := seededFloat t 1.5 4.0 1
    let totalApps := jsRound (intakePerYear * p1.1 * demandMultiplier)
    let p2 := seededFloat p1.2 0.45 0.6 2
    let firstPref := jsRound (totalApps * p2.1)
    let p3 := seededFloat p2.2 0.2 0.35 2
    let secondPref := jsRound (totalApps * p3.1)
    let thirdPref := totalApps - firstPref - secondPref
    let pDist : Option ℚ × Nat :=
      if totalApps > intakePerYear * 1.1 then
        let q := seededFloat p3.2 0.3 3.5 2
        (some q.1, q.2)
      else (none, p3.2)
    ({ capacity := intakePerYear,
       applications := { first := firstPref, second := secondPref,
                         third := max 0 thirdPref, total := totalApps },
       offers := intakePerYear,
       oversubscribed := decide (totalApps > intakePerYear * 1.1),
       lastDistanceOffered := pDist.1,
       year := "2024" }, pDist.2)

/-- The ethnicity-distribution block of generateSyntheticDemographics
(extract.js): three borough categories with distinct draw ranges, the
other bucket receiving the remainder with a small floor. -/
def ethnicityDraw (s : School) (t1 : Nat) : Ethnicities × Nat :=
  if s.borough ∈ (["Tower Hamlets", "Newham", "Brent", "Ealing", "Hounslow"] : List String) then
    let a := seededInt t1 25 50
    let b := seededInt a.2 10 25
    let w := seededInt b.2 15 30
    let m := seededInt w.2 5 15
    let other := 100 - a.1 - b.1 - w.1 - m.1
    ({ white := max 5 w.1, asian := a.1, black := b.1, mixed := m.1,
       other := max 2 other }, m.2)
  else if s.borough ∈ (["Havering", "Bromley", "Bexley", "Richmond upon Thames", "Sutton"] : List String) then
    let w := seededInt t1 55 75
    let a := seededInt w.2 5 15
    let b := seededInt a.2 5 15
    let m := seededInt b.2 5 10
    let other := 100 - w.1 - a.1 - b.1 - m.1
    ({ white := w.1, asian := a.1, black := b.1, mixed := m.1,
       other := max 1 other }, m.2)
  else
    let w := seededInt t1 25 50
    let a := seededInt w.2 12 30
    let b := seededInt a.2 12 30
    let m := seededInt b.2 5 15
    let other := 100 - w.1 - a.1 - b.1 - m.1
    ({ white := w.1, asian := a.1, black := b.1, mixed := m.1,
       other := max 2 other }, m.2)

/-- The normalize-to-100 block of both demographics generators: if the
five buckets do not sum to 100, the whole deficit or surplus is added to
the other bucket, which is then floored at 0. -/
def normalizeEthnicities (e : Ethnicities) : Ethnicities :=
  if e.white + e.asian + e.black + e.mixed + e.other ≠ 100 then
    { e with other := max 0 (e.other
        + (100 - (e.white + e.asian + e.black + e.mixed + e.other))) }
  else e

/-- generateSyntheticDemographics from extract.js (the three-branch
London table; the Kent variant adds a fourth branch, embedded further
below as p4Demographics). -/
def generateSyntheticDemographics (s : School) (t : Nat) : Demographics × Nat :=
  let isPrivate := s.sector = "Private"
  let tier := boroughTier s.borough
  let phase := s.phase
  let pFsm : ℚ × Nat :=
    if isPrivate then (0, t)
    else if phase = "Nursery" then seededInt t 5 35
    else
      let p := seededInt t 8 50
      (max 1 (jsRound (p.1 - tier * 5)), p.2)
  let fsmPercent := pFsm.1
  let isInner := s.borough ∈ (["Tower Hamlets", "Newham", "Hackney", "Brent", "Westminster",
    "Ealing", "Hounslow", "Haringey", "Lambeth", "Southwark"] : List String)
  let pEal : ℚ × Nat :=
    if isPrivate then seededInt pFsm.2 10 30
    else if isInner then seededInt pFsm.2 30 70
    else seededInt pFsm.2 8 40
  let ealPercent := pEal.1
  let pSen : ℚ × Nat :=
    if phase = "Special" then seededInt pEal.2 85 100
    else if isPrivate then seededInt pEal.2 3 10
    else seededInt pEal.2 8 22
  let senPercent := pSen.1
  let ethP := ethnicityDraw s pSen.2
  ({ fsmPercent := fsmPercent, ealPercent := ealPercent, senPercent := senPercent,
     ethnicities := normalizeEthnicities ethP.1 }, ethP.2)

def CONTACT_FIRST_NAMES : List String :=
  ["James", "Sarah", "David", "Emma", "Michael", "Rachel", "Andrew", "Helen",
   "Richard", "Catherine", "Robert", "Jane", "Christopher", "Amanda", "Paul",
   "Rebecca", "Simon", "Louise", "Mark", "Claire", "Stephen", "Nicola",
   "Jonathan", "Elizabeth", "Peter", "Susan", "Daniel", "Karen", "Matthew", "Fiona"]

def CONTACT_LAST_NAMES : List String :=
  ["Smith", "Johnson", "Williams", "Brown", "Taylor", "Davies", "Wilson",
   "Evans", "Thomas", "Roberts", "Walker", "Wright", "Robinson", "Thompson",
   "White", "Hughes", "Edwards", "Green", "Hall", "Lewis", "Harris", "Clarke",
   "Patel", "Jackson", "Wood", "Turner", "Martin", "Cooper", "Hill", "Ward",
   "Khan", "Ali", "Kumar", "Singh", "Okonkwo", "Adeyemi", "Chen", "Wang"]

/-- generateSyntheticContact from extract.js (identical in the Kent
variant).  The synthetic path always fills every contact field. -/
def generateSyntheticContact (s : School) (t : Nat) : ContactInfo × Nat :=
  let p1 := seededPick t ["020 7", "020 8", "020 3"] ""
  let areaCode := p1.1
  let p2 := seededInt p1.2 1000 9999
  let p3 := seededInt p2.2 1000 9999
  let digits := qIntStr p2.1 ++ " " ++ qIntStr p3.1
  let phone := areaCode ++ digits
  let nameParts := String.join ((jsSplitWs (keepLowerWs (jsToLower s.name))).take 2)
  let pDom : String × Nat :=
    if s.sector = "Private" then seededPick p3.2 ["org.uk", "co.uk"] ""
    else ("sch.uk", p3.2)
  let domain := pDom.1
  let boroughSlug := (stripWs (jsToLower s.borough)).replace "and" ""
  let email := "info@" ++ nameParts ++ "." ++ boroughSlug ++ "." ++ domain
  let p4 := seededPick pDom.2 ["Mr", "Mrs", "Ms", "Dr"] ""
  let p5 := seededPick p4.2 CONTACT_FIRST_NAMES ""
  let p6 := seededPick p5.2 CONTACT_LAST_NAMES ""
  let headteacher := p4.1 ++ " " ++ p5.1 ++ " " ++ p6.1
  ({ phone := some phone, email := some email, headteacher := some headteacher }, p6.2)

/-- generateSyntheticFinances from extract.js (textually identical in
the Kent variant, but reading that file's extended BOROUGH_TIER; the
variant is embedded below as p4Finances). -/
def generateSyntheticFinances (s : School) (t : Nat) : Finances × Nat :=
  let isPrivate := s.sector = "Private"
  let pupils : ℚ := if s.pupils = 0 then 100 else (s.pupils : ℚ)
  let phase := s.phase
  let tier := boroughTier s.borough
  if phase = "Nursery" then
    let p1 : ℚ × Nat := if isPrivate then seededInt t 8000 15000 else seededInt t 5000 8000
    let perPupil := p1.1
    let totalIncome := perPupil * pupils
    let p2 := seededFloat p1.2 3 5 1
    let staffCount := max 5 (jsRound (pupils / p2.1))
    ({ totalIncome := totalIncome, perPupilFunding := perPupil,
       teacherCount := staffCount,
       pupilTeacherRatio := jsToFixed 1 (pupils / staffCount) }, p2.2)
  else
    let pB : ℚ × Nat :=
      if isPrivate then
        let p := seededInt t 14000 28000
        (p.1 + tier * 1500, p.2)
      else if phase = "Special" then seededInt t 18000 35000
      else if phase = "Primary" then
        let p := seededInt t 5200 7800
        (p.1 + tier * 200, p.2)
      else
        let p := seededInt t 6000 9500
        (p.1 + tier * 300, p.2)
    let perPupilBase := pB.1
    let totalIncome := perPupilBase * pupils
    let pR : ℚ × Nat :=
      if isPrivate then seededFloat pB.2 8 13 1
      else if phase = "Special" then seededFloat pB.2 4 8 1
      else if phase = "Primary" then seededFloat pB.2 18 27 1
      else seededFloat pB.2 14 19 1
    let teacherCount := max 5 (jsRound (pupils / pR.1))
    let actualRatioV := jsToFixed 1 (pupils / teacherCount)
    ({ totalIncome := totalIncome, perPupilFunding := perPupilBase,
       teacherCount := teacherCount, pupilTeacherRatio := actualRatioV }, pR.2)

-- ── The enrichment orchestrator of extract.js ───────────────────────

/-- The data a successful Ofsted provider-page fetch would yield
(fetchOfstedData in extract.js); the network itself is external. -/
structure RealOfsted where
  rating : String
  date : Option String
  report : String
deriving DecidableEq

/-- The data a successful school-website scrape would yield
(scrapeSchoolWebsite in extract.js); none models both a failed fetch and
a page from which nothing could be extracted. -/
structure ScrapedContact where
  phone : Option String
  email : Option String
  headteacher : Option String
deriving DecidableEq

/-- The environment of one enrichSchool call: what each of the three
best-effort network fetches would return for this school.  The
performance fetch result is only ever tested for success, never read,
exactly as in the source. -/
structure FetchOracle where
  ofsted : Option RealOfsted
  performance : Option Unit
  contact : Option ScrapedContact
deriving DecidableEq

/-- The seed of enrichSchool: parseInt(school.urn) with JS falsy
fallbacks to school.id and then to 1. -/
def seedOf (s : School) : ℤ :=
  match jsParseInt s.urn with
  | some n => if n = 0 then (if s.id = 0 then 1 else s.id) else n
  | none => if s.id = 0 then 1 else s.id

/-- The initial mulberry32 state: (seed | 0) + 0x6d2b79f5, represented
by its residue modulo 2 ^ 32. -/
def seedState (s : School) : Nat := ((seedOf s + 0x6d2b79f5) % (pow32 : ℤ)).toNat

/-- The Ofsted fetch is attempted only in enrich and full modes. -/
def ofstedAttempt (m : String) (o : FetchOracle) : Option RealOfsted :=
  if m = "enrich" ∨ m = "full" then o.ofsted else none

/-- The performance fetch is attempted only in enrich and full modes. -/
def performanceAttempt (m : String) (o : FetchOracle) : Option Unit :=
  if m = "enrich" ∨ m = "full" then o.performance else none

/-- The website scrape is attempted only in full mode with a truthy
website, and scrapeSchoolWebsite itself bails out unless the url starts
with http. -/
def contactAttempt (s : School) (m : String) (o : FetchOracle) : Option ScrapedContact :=
  if m = "full" ∧ s.website ≠ "" then
    (if s.website.startsWith "http" then o.contact else none)
  else none

/-- Which of the three fetches succeed for this school, mode and
environment: the only channel through which the environment can affect
the synthetic draws. -/
def fetchPattern (s : School) (m : String) (o : FetchOracle) : Bool × Bool × Bool :=
  ((ofstedAttempt m o).isSome, (performanceAttempt m o).isSome, (contactAttempt s m o).isSome)

/-- JS (x || null) applied to a scraped optional string field. -/
def orNull (x : Option String) : Option String :=
  match x with
  | some v => if v = "" then none else some v
  | none => none

/-- enrichSchool from extract.js.  One PRNG stream per school, threaded
through the generators in source order: ofsted, performance, contact,
admissions, demographics, finances.  A successful real fetch for a group
skips that group's synthetic generator (consuming no draws) and tags the
group "real"; admissions, demographics and finances are always
synthetic. -/
def enrichSchool (s : School) (m : String) (o : FetchOracle) : Enriched :=
  let t0 := seedState s
  let ofstedP : Ofsted × String × Nat :=
    match ofstedAttempt m o with
    | some r => ({ rating := r.rating, date := r.date, previousRating := none,
                   previousDate := none, report := some r.report, parentView := none },
                 "real", t0)
    | none =>
        let p := generateSyntheticOfsted s t0
        (p.1, "synthetic", p.2)
  let t1 := ofstedP.2.2
  let perfP : Option Performance × String × Nat :=
    match performanceAttempt m o with
    | some _ => (none, "real", t1)
    | none =>
        let p := generateSyntheticPerformance s t1
        (some p.1, "synthetic", p.2)
  let t2 := perfP.2.2
  let contactP : ContactInfo × String × Nat :=
    match contactAttempt s m o with
    | some c => ({ phone := orNull c.phone, email := orNull c.email,
                   headteacher := orNull c.headteacher }, "real", t2)
    | none =>
        let p := generateSyntheticContact s t2
        (p.1, "synthetic", p.2)
  let t3 := contactP.2.2
  let admisP := generateSyntheticAdmissions s t3
  let demoP := generateSyntheticDemographics s admisP.2
  let finP := generateSyntheticFinances s demoP.2
  { base := s,
    ofsted := ofstedP.1,
    performance := perfP.1,
    contact := contactP.1,
    admissions := admisP.1,
    demographics := demoP.1,
    finances := finP.1,
    dataSources := { ofsted := ofstedP.2.1, performance := perfP.2.1,
                     contact := contactP.2.1, admissions := "synthetic",
                     demographics := "synthetic", finances := "synthetic" } }

/-- The per-record cleaning step of writeOutput: the rest-spread that
drops _dataSources and keeps every other field. -/
def stripDataSources (e : Enriched) : CleanSchool :=
  { base := e.base, ofsted := e.ofsted, performance := e.performance,
    contact := e.contact, admissions := e.admissions,
    demographics := e.demographics, finances := e.finances }

-- ── The London + Kent pipeline variant (second extract.js) ──────────

structure CatchmentHist where
  y2024 : ℚ
  y2023 : ℚ
  y2022 : ℚ
deriving DecidableEq

structure Catchment4 where
  officialRadius : ℚ
  effectiveRadius : ℚ
  history : CatchmentHist
  unit : String
deriving DecidableEq

structure Criterion where
  criterion : String
  priority : ℚ
  description : String
deriving DecidableEq

structure Appeals where
  lodged : ℚ
  successful : ℚ
deriving DecidableEq

structure OpenDay where
  date : String
  time : String
  type : String
deriving DecidableEq

/-- The admissions sub-record of the Kent variant.  Its Nursery branch
returns no catchment, criteria, appeals, openDays or deadline fields;
those are Option / empty-list here. -/
structure Admissions4 where
  capacity : ℚ
  applications : Applications
  offers : ℚ
  oversubscribed : Bool
  lastDistanceOffered : Option ℚ
  catchment : Option Catchment4
  criteria : List Criterion
  appeals : Option Appeals
  openDays : List OpenDay
  applicationDeadline : Option String
  year : String
deriving DecidableEq

/-- generateOpenDays inner loop of the Kent variant: numDays iterations,
each drawing a month, a day and an hour. -/
def p4OpenDaysLoop (months : List String) (n : ℕ) (t : Nat) : List OpenDay × Nat :=
  match n with
  | 0 => ([], t)
  | Nat.succ k =>
      let pM := seededPick t months ""
      let pD := seededInt pM.2 1 28
      let pH := seededPick pD.2 ([9, 10, 14, 18] : List ℚ) 0
      let hour := pH.1
      let day : OpenDay :=
        { date := qIntStr pD.1 ++ " " ++ pM.1 ++ " 2024",
          time := qIntStr hour ++ ":00",
          type := if hour ≥ 17 then "Evening" else "Daytime" }
      let rest := p4OpenDaysLoop months k pH.2
      (day :: rest.1, rest.2)

/-- generateOpenDays from the Kent variant. -/
def p4GenerateOpenDays (t : Nat) (phase : String) : List OpenDay × Nat :=
  let months := if phase = "Primary"
    then ["September", "October", "November"]
    else ["September", "October"]
  let pN := seededInt t 1 3
  p4OpenDaysLoop months pN.1.num.toNat pN.2

/-- generateSyntheticAdmissions from the Kent variant: the extract.js
model extended with catchment, criteria, appeals and open days. -/
def p4Admissions (s : School) (t : Nat) : Admissions4 × Nat :=
  let phase := s.phase
  let pupils : ℚ := if s.pupils = 0 then 200 else (s.pupils : ℚ)
  let tier := p4BoroughTier s.borough
  let mult := ofstedMultiplier s.ofstedRating
  if phase = "Nursery" then
    let p1 := seededFloat t 0.9 1.1 2
    let capacity := max 20 (jsRound (pupils * p1.1))
    let p2 := seededFloat p1.2 1.2 2.5 1
    let totalApps := jsRound (capacity * p2.1)
    let pDist : Option ℚ × Nat :=
      if totalApps > capacity then
        let q := seededFloat p2.2 0.3 2.0 2
        (some q.1, q.2)
      else (none, p2.2)
    ({ capacity := capacity,
       applications := { first := jsRound (totalApps * 0.55),
                         second := jsRound (totalApps * 0.28),
                         third := jsRound (totalApps * 0.17),
                         total := totalApps },
       offers := capacity,
       oversubscribed := decide (totalApps > capacity),
       lastDistanceOffered := pDist.1,
       catchment := none, criteria := [], appeals := none, openDays := [],
       applicationDeadline := none,
       year := "2024" }, pDist.2)
  else
    let intakeRaw : ℚ :=
      if phase = "Primary" then jsRound (pupils / 7)
      else if phase = "Secondary" then jsRound (pupils / (if s.hasSixthForm then 7 else 5))
      else if phase = "All-Through" then jsRound (pupils / 14)
      else if phase = "Reception" then jsRound (pupils / 7)
      else jsRound (pupils / 5)
    let intakePerYear := max 15 intakeRaw
    let demandMultiplier := mult * (1 + (tier - 1) * 0.15)
    let p1 := seededFloat t 1.5 4.0 1
    let totalApps := jsRound (intakePerYear * p1.1 * demandMultiplier)
    let p2 := seededFloat p1.2 0.45 0.6 2
    let firstPref := jsRound (totalApps * p2.1)
    let p3 := seededFloat p2.2 0.2 0.35 2
    let secondPref := jsRound (totalApps * p3.1)
    let thirdPref := totalApps - firstPref - secondPref
    let pDist : Option ℚ × Nat :=
      if totalApps > intakePerYear * 1.1 then
        let q := seededFloat p3.2 0.3 3.5 2
        (some q.1, q.2)
      else (none, p3.2)
    let lastDistance := pDist.1
    let isKentSchool := KENT_DISTRICTS.any (fun d => strContains (jsToLower s.borough) (jsToLower d))
    let pBase := if isKentSchool then seededFloat pDist.2 2.0 8.0 2
                 else seededFloat pDist.2 0.5 3.5 2
    let baseCatchmentKm := pBase.1
    let effectiveCatchment :=
      if totalApps > intakePerYear * 1.1 then
        max 0.2 (match lastDistance with
                 | some dd => if dd = 0 then baseCatchmentKm * 0.4 else dd
                 | none => baseCatchmentKm * 0.4)
      else baseCatchmentKm
    let pH3 := seededFloat pBase.2 (effectiveCatchment * 0.85) (effectiveCatchment * 1.15) 2
    let pH2 := seededFloat pH3.2 (effectiveCatchment * 0.8) (effectiveCatchment * 1.2) 2
    let hist : CatchmentHist :=
      { y2024 := (match lastDistance with
                  | some dd => if dd = 0 then effectiveCatchment else dd
                  | none => effectiveCatchment),
        y2023 := pH3.1, y2022 := pH2.1 }
    let critP : List Criterion × Nat :=
      if s.religiousCharacter ≠ "" ∧ s.religiousCharacter ≠ "None" then
        ([{ criterion := "Faith", priority := 1,
            description := "Regular attendance at " ++ s.religiousCharacter ++ " church" },
          { criterion := "Siblings", priority := 2,
            description := "Brothers/sisters at the school" },
          { criterion := "Distance", priority := 3,
            description := "Distance from home to school" }], pH2.2)
      else
        let base : List Criterion :=
          [{ criterion := "Looked After Children", priority := 1,
             description := "Children in care or previously in care" },
           { criterion := "Siblings", priority := 2,
             description := "Brothers/sisters at the school" },
           { criterion := "Distance", priority := 3,
             description := "Straight-line distance from home to school" }]
        if phase = "Secondary" then
          let r := randQ pH2.2
          if r.1 < 0.3 then
            (base ++ [{ criterion := "Aptitude", priority := 2,
                        description := "Aptitude in specific subject area" }], r.2)
          else (base, r.2)
        else (base, pH2.2)
    let pAL : ℚ × Nat :=
      if totalApps > intakePerYear * 1.1 then seededInt critP.2 5 40
      else seededInt critP.2 0 5
    let appealsLodged := pAL.1
    let pAS := seededFloat pAL.2 0.1 0.35 2
    let appealsSuccessful := jsRound (appealsLodged * pAS.1)
    let pOD := p4GenerateOpenDays pAS.2 phase
    ({ capacity := intakePerYear,
       applications := { first := firstPref, second := secondPref,
                         third := max 0 thirdPref, total := totalApps },
       offers := intakePerYear,
       oversubscribed := decide (totalApps > intakePerYear * 1.1),
       lastDistanceOffered := lastDistance,
       catchment := some { officialRadius := baseCatchmentKm,
                           effectiveRadius := effectiveCatchment,
                           history := hist, unit := "km" },
       criteria := critP.1,
       appeals := some { lodged := appealsLodged, successful := appealsSuccessful },
       openDays := pOD.1,
       applicationDeadline := some (if phase = "Primary" then "15 January 2025"
                                    else "31 October 2024"),
       year := "2024" }, pOD.2)

/-- The ethnicity-distribution block of the Kent-variant demographics
generator: a Kent branch ahead of the three London categories. -/
def p4EthnicityDraw (s : School) (t1 : Nat) : Ethnicities × Nat :=
  let isKent := KENT_DISTRICTS.any (fun d => strContains (jsToLower s.borough) (jsToLower d))
  if isKent then
    let w := seededInt t1 70 88
    let a := seededInt w.2 3 12
    let b := seededInt a.2 2 8
    let m := seededInt b.2 3 8
    let other := 100 - w.1 - a.1 - b.1 - m.1
    ({ white := w.1, asian := a.1, black := b.1, mixed := m.1,
       other := max 1 other }, m.2)
  else if s.borough ∈ (["Tower Hamlets", "Newham", "Brent", "Ealing", "Hounslow"] : List String) then
    let a := seededInt t1 25 50
    let b := seededInt a.2 10 25
    let w := seededInt b.2 15 30
    let m := seededInt w.2 5 15
    let other := 100 - a.1 - b.1 - w.1 - m.1
    ({ white := max 5 w.1, asian := a.1, black := b.1, mixed := m.1,
       other := max 2 other }, m.2)
  else if s.borough ∈ (["Havering", "Bromley", "Bexley", "Richmond upon Thames", "Sutton"] : List String) then
    let w := seededInt t1 55 75
    let a := seededInt w.2 5 15
    let b := seededInt a.2 5 15
    let m := seededInt b.2 5 10
    let other := 100 - w.1 - a.1 - b.1 - m.1
    ({ white := w.1, asian := a.1, black := b.1, mixed := m.1,
       other := max 1 other }, m.2)
  else
    let w := seededInt t1 25 50
    let a := seededInt w.2 12 30
    let b := seededInt a.2 12 30
    let m := seededInt b.2 5 15
    let other := 100 - w.1 - a.1 - b.1 - m.1
    ({ white := w.1, asian := a.1, black := b.1, mixed := m.1,
       other := max 2 other }, m.2)

/-- generateSyntheticDemographics from the Kent variant: the extract.js
generator with a Kent branch ahead of the three London branches and the
extended tier table. -/
def p4Demographics (s : School) (t : Nat) : Demographics × Nat :=
  let isPrivate := s.sector = "Private"
  let tier := p4BoroughTier s.borough
  let phase := s.phase
  let pFsm : ℚ × Nat :=
    if isPrivate then (0, t)
    else if phase = "Nursery" then seededInt t 5 35
    else
      let p := seededInt t 8 50
      (max 1 (jsRound (p.1 - tier * 5)), p.2)
  let fsmPercent := pFsm.1
  let isInner := s.borough ∈ (["Tower Hamlets", "Newham", "Hackney", "Brent", "Westminster",
    "Ealing", "Hounslow", "Haringey", "Lambeth", "Southwark"] : List String)
  let pEal : ℚ × Nat :=
    if isPrivate then seededInt pFsm.2 10 30
    else if isInner then seededInt pFsm.2 30 70
    else seededInt pFsm.2 8 40
  let ealPercent := pEal.1
  let pSen : ℚ × Nat :=
    if phase = "Special" then seededInt pEal.2 85 100
    else if isPrivate then seededInt pEal.2 3 10
    else seededInt pEal.2 8 22
  let senPercent := pSen.1
  let ethP := p4EthnicityDraw s pSen.2
  ({ fsmPercent := fsmPercent, ealPercent := ealPercent, senPercent := senPercent,
     ethnicities := normalizeEthnicities ethP.1 }, ethP.2)

/-- generateSyntheticFinances from the Kent variant: textually the same
as the extract.js generator but reading the extended tier table. -/
def p4Finances (s : School) (t : Nat) : Finances × Nat :=
  let isPrivate := s.sector = "Private"
  let pupils : ℚ := if s.pupils = 0 then 100 else (s.pupils : ℚ)
  let phase := s.phase
  let tier := p4BoroughTier s.borough
  if phase = "Nursery" then
    let p1 : ℚ × Nat := if isPrivate then seededInt t 8000 15000 else seededInt t 5000 8000
    let perPupil := p1.1
    let totalIncome := perPupil * pupils
    let p2 := seededFloat p1.2 3 5 1
    let staffCount := max 5 (jsRound (pupils / p2.1))
    ({ totalIncome := totalIncome, perPupilFunding := perPupil,
       teacherCount := staffCount,
       pupilTeacherRatio := jsToFixed 1 (pupils / staffCount) }, p2.2)
  else
    let pB : ℚ × Nat :=
      if isPrivate then
        let p := seededInt t 14000 28000
        (p.1 + tier * 1500, p.2)
      else if phase = "Special" then seededInt t 18000 35000
      else if phase = "Primary" then
        let p := seededInt t 5200 7800
        (p.1 + tier * 200, p.2)
      else
        let p := seededInt t 6000 9500
        (p.1 + tier * 300, p.2)
    let perPupilBase := pB.1
    let totalIncome := perPupilBase * pupils
    let pR : ℚ × Nat :=
      if isPrivate then seededFloat pB.2 8 13 1
      else if phase = "Special" then seededFloat pB.2 4 8 1
      else if phase = "Primary" then seededFloat pB.2 18 27 1
      else seededFloat pB.2 14 19 1
    let teacherCount := max 5 (jsRound (pupils / pR.1))
    ({ totalIncome := totalIncome, perPupilFunding := perPupilBase,
       teacherCount := teacherCount,
       pupilTeacherRatio := jsToFixed 1 (pupils / teacherCount) }, pR.2)

-- ── The Kent variant performance generator ──────────────────────────

structure KS2P4 where
  readingExpected : ℚ
  mathsExpected : ℚ
  writingExpected : ℚ
  gpsExpected : ℚ
  combinedExpected : ℚ
  readingProgress : ℚ
  mathsProgress : ℚ
  writingProgress : ℚ
  readingHigher : ℚ
  mathsHigher : ℚ
  writingHigher : ℚ
  year : String
deriving DecidableEq

/-- KS4 of the Kent variant: the extract.js block plus a subject table
(modeled as an association list in JS insertion order). -/
structure KS4P4 where
  attainment8 : ℚ
  progress8 : ℚ
  ebaccEntry : ℚ
  ebaccAvg : ℚ
  grade5EnMa : ℚ
  subjects : List (String × ℚ)
  year : String
deriving DecidableEq

structure KS5P4 where
  averagePointScore : ℚ
  aabOrHigher : ℚ
  subjects : List (String × ℚ)
  vocational : List (String × ℚ)
  destinations : List (String × ℚ)
  year : String
deriving DecidableEq

structure PerformanceP4 where
  ks2 : Option KS2P4
  ks4 : Option KS4P4
  ks5 : Option KS5P4
deriving DecidableEq

/-- The private-school forEach boost of the Kent variant KS4 subject
table: each entry gains an independent seededInt draw, capped at 100. -/
def boostSubjectsInt (lo hi : ℤ) : List (String × ℚ) → Nat → List (String × ℚ) × Nat
  | [], t => ([], t)
  | (k, v) :: rest, t =>
      let p := seededInt t lo hi
      let r := boostSubjectsInt lo hi rest p.2
      ((k, min 100 (v + p.1)) :: r.1, r.2)

/-- The private-school forEach boost of the Kent variant A-Level table:
each entry gains an independent seededFloat draw, capped at 6. -/
def boostSubjectsFloat (lo hi : ℚ) (d : ℕ) : List (String × ℚ) → Nat → List (String × ℚ) × Nat
  | [], t => ([], t)
  | (k, v) :: rest, t =>
      let p := seededFloat t lo hi d
      let r := boostSubjectsFloat lo hi d rest p.2
      ((k, min 6 (v + p.1)) :: r.1, r.2)

/-- generateSyntheticPerformance from the Kent variant.  Draw order
follows the source throughout (KS2 core draws, then progress, then
greater-depth; KS4 core, subject table, private boosts; KS5 A-Level
table, vocational, destinations, private boosts). -/
def p4Performance (s : School) (t : Nat) : PerformanceP4 × Nat :=
  let phase := s.phase
  let isPrivate := s.sector = "Private"
  let tier := p4BoroughTier s.borough
  let mult := ofstedMultiplier s.ofstedRating
  let tierBonus := (tier - 1) * 2
  if phase = "Nursery" ∨ phase = "Reception" then
    ({ ks2 := none, ks4 := none, ks5 := none }, t)
  else
    let ks2P : Option KS2P4 × Nat :=
      if phase = "Primary" ∨ phase = "All-Through" ∨ phase = "Special" then
        let p1 := seededInt t 60 85
        let baseReading := min 100 (jsRound ((p1.1 + tierBonus) * mult))
        let p2 := seededInt p1.2 58 84
        let baseMaths := min 100 (jsRound ((p2.1 + tierBonus) * mult))
        let p3 := seededInt p2.2 56 82
        let baseWriting := min 100 (jsRound ((p3.1 + tierBonus) * mult))
        let p4g := seededInt p3.2 55 80
        let baseGPS := min 100 (jsRound ((p4g.1 + tierBonus) * mult))
        let combined := min 100 (jsRound ((baseReading + baseMaths + baseWriting) / 3 * 0.88))
        let pr1 := seededFloat p4g.2 (-2.5) 3.5 1
        let readingProgress := pr1.1
        let pr2 := seededFloat pr1.2 (-2.0) 3.8 1
        let mathsProgress := pr2.1
        let pr3 := seededFloat pr2.2 (-2.2) 3.2 1
        let writingProgress := pr3.1
        let ph1 := seededInt pr3.2 15 45
        let readingHigher := min (baseReading - 20) (max 5 ph1.1)
        let ph2 := seededInt ph1.2 12 40
        let mathsHigher := min (baseMaths - 20) (max 5 ph2.1)
        let ph3 := seededInt ph2.2 10 35
        let writingHigher := min (baseWriting - 25) (max 3 ph3.1)
        if isPrivate then
          let q1 := seededInt ph3.2 5 15
          let q2 := seededInt q1.2 5 15
          let q3 := seededInt q2.2 5 15
          let q4 := seededInt q3.2 5 15
          let q5 := seededInt q4.2 8 18
          let q6 := seededFloat q5.2 0.5 1.5 1
          let q7 := seededFloat q6.2 0.5 1.5 1
          let q8 := seededFloat q7.2 0.5 1.5 1
          let q9 := seededInt q8.2 10 20
          let q10 := seededInt q9.2 10 20
          let q11 := seededInt q10.2 8 15
          (some { readingExpected := min 100 (baseReading + q1.1),
                  mathsExpected := min 100 (baseMaths + q2.1),
                  writingExpected := min 100 (baseWriting + q3.1),
                  gpsExpected := min 100 (baseGPS + q4.1),
                  combinedExpected := min 100 (combined + q5.1),
                  readingProgress := readingProgress + q6.1,
                  mathsProgress := mathsProgress + q7.1,
                  writingProgress := writingProgress + q8.1,
                  readingHigher := min 70 (readingHigher + q9.1),
                  mathsHigher := min 65 (mathsHigher + q10.1),
                  writingHigher := min 55 (writingHigher + q11.1),
                  year := "2024" }, q11.2)
        else
          (some { readingExpected := baseReading, mathsExpected := baseMaths,
                  writingExpected := baseWriting, gpsExpected := baseGPS,
                  combinedExpected := combined,
                  readingProgress := readingProgress, mathsProgress := mathsProgress,
                  writingProgress := writingProgress,
                  readingHigher := readingHigher, mathsHigher := mathsHigher,
                  writingHigher := writingHigher,
                  year := "2024" }, ph3.2)
      else (none, t)
    let t1 := ks2P.2
    let ks4P : Option KS4P4 × Nat :=
      if phase = "Secondary" ∨ phase = "All-Through" ∨ phase = "16 Plus" then
        let p1 := seededFloat t1 38 58 1
        let baseA8 := p1.1 + tierBonus * 1.2
        let p2 := seededFloat p1.2 (-0.3) 0.6 2
        let baseP8 := p2.1
        let p3 := seededInt p2.2 20 65
        let ebaccEntryV := p3.1 + tierBonus
        let p4e := seededFloat p3.2 3.2 5.8 1
        let ebaccAvgV := p4e.1
        let p5 := seededInt p4e.2 30 65
        let grade5 := p5.1 + tierBonus
        let sj (tt : Nat) (lo hi : ℤ) : ℚ × Nat :=
          let p := seededInt tt lo hi
          (min 100 (jsRound ((p.1 + tierBonus) * mult)), p.2)
        let s1 := sj p5.2 45 75
        let s2 := sj s1.2 42 72
        let s3 := sj s2.2 40 70
        let s4 := sj s3.2 48 78
        let s5 := sj s4.2 46 76
        let s6 := sj s5.2 35 68
        let s7 := sj s6.2 50 80
        let s8 := sj s7.2 52 82
        let s9 := sj s8.2 55 85
        let s10 := sj s9.2 38 68
        let s11 := sj s10.2 50 80
        let s12 := sj s11.2 45 75
        let subjectScores : List (String × ℚ) :=
          [("english", s1.1), ("maths", s2.1), ("science", s3.1), ("history", s4.1),
           ("geography", s5.1), ("modernLanguages", s6.1), ("art", s7.1), ("music", s8.1),
           ("pe", s9.1), ("computing", s10.1), ("drama", s11.1), ("dt", s12.1)]
        if isPrivate then
          let boosted := boostSubjectsInt 10 20 subjectScores s12.2
          let q1 := seededFloat boosted.2 55 75 1
          let q2 := seededFloat q1.2 0.1 0.8 2
          let q3 := seededInt q2.2 60 95
          let q4 := seededFloat q3.2 5.5 7.5 1
          let q5 := seededInt q4.2 65 92
          (some { attainment8 := min 90 q1.1, progress8 := q2.1,
                  ebaccEntry := min 100 q3.1, ebaccAvg := q4.1,
                  grade5EnMa := min 100 q5.1, subjects := boosted.1,
                  year := "2024" }, q5.2)
        else
          (some { attainment8 := jsToFixed 1 (min 80 (baseA8 * mult)),
                  progress8 := jsToFixed 2 (baseP8 * mult),
                  ebaccEntry := min 100 (jsRound (ebaccEntryV * mult)),
                  ebaccAvg := jsToFixed 1 (min 8 (ebaccAvgV * mult)),
                  grade5EnMa := min 100 (jsRound (grade5 * mult)),
                  subjects := subjectScores,
                  year := "2024" }, s12.2)
      else (none, t1)
    let t2 := ks4P.2
    let ks5P : Option KS5P4 × Nat :=
      if s.hasSixthForm ∧ (phase = "Secondary" ∨ phase = "All-Through" ∨ phase = "16 Plus") then
        let a1 := seededFloat t2 3.5 5.5 1
        let a2 := seededFloat a1.2 4.0 5.8 1
        let a3 := seededFloat a2.2 3.2 5.2 1
        let a4 := seededFloat a3.2 3.4 5.4 1
        let a5 := seededFloat a4.2 3.3 5.3 1
        let a6 := seededFloat a5.2 3.5 5.5 1
        let a7 := seededFloat a6.2 3.4 5.4 1
        let a8 := seededFloat a7.2 3.5 5.5 1
        let a9 := seededFloat a8.2 3.6 5.6 1
        let a10 := seededFloat a9.2 3.3 5.3 1
        let a11 := seededFloat a10.2 3.8 5.6 1
        let a12 := seededFloat a11.2 3.2 5.2 1
        let a13 := seededFloat a12.2 3.3 5.3 1
        let aLevelRaw : List (String × ℚ) :=
          [("maths", a1.1), ("furtherMaths", a2.1), ("english", a3.1), ("physics", a4.1),
           ("chemistry", a5.1), ("biology", a6.1), ("history", a7.1), ("geography", a8.1),
           ("economics", a9.1), ("psychology", a10.1), ("art", a11.1),
           ("modernLanguages", a12.1), ("computerScience", a13.1)]
        let aLevelSubjects := aLevelRaw.map
          (fun kv => (kv.1, jsToFixed 1 (min 6 ((kv.2 + tierBonus * 0.1) * mult))))
        let v1 := seededInt a13.2 30 70
        let v2 := seededInt v1.2 10 60
        let vocationalResults : List (String × ℚ) :=
          [("btecDistinctionRate", v1.1), ("vocationalEntries", v2.1)]
        let d1 := seededInt v2.2 40 85
        let d2 := seededInt d1.2 5 45
        let d3 := seededInt d2.2 0 15
        let d4 := seededInt d3.2 5 25
        let d5 := seededInt d4.2 5 20
        if isPrivate then
          let boosted := boostSubjectsFloat 0.3 0.8 1 aLevelSubjects d5.2
          let b1 := seededInt boosted.2 10 20
          let b2 := seededInt b1.2 15 30
          let b3 := seededInt b2.2 5 15
          let destinations : List (String × ℚ) :=
            [("university", min 98 (d1.1 + b1.1)), ("russellGroup", min 80 (d2.1 + b2.1)),
             ("oxbridge", min 40 (d3.1 + b3.1)), ("apprenticeship", d4.1),
             ("employment", d5.1)]
          let q1 := seededFloat b3.2 38 48 1
          let q2 := seededInt q1.2 25 55
          (some { averagePointScore := q1.1, aabOrHigher := q2.1,
                  subjects := boosted.1, vocational := vocationalResults,
                  destinations := destinations, year := "2024" }, q2.2)
        else
          let destinations : List (String × ℚ) :=
            [("university", d1.1), ("russellGroup", d2.1), ("oxbridge", d3.1),
             ("apprenticeship", d4.1), ("employment", d5.1)]
          let p1 := seededFloat d5.2 28 42 1
          let baseAPS := p1.1 + tierBonus * 0.5
          let p2 := seededInt p1.2 8 30
          (some { averagePointScore := jsToFixed 1 (min 50 (baseAPS * mult)),
                  aabOrHigher := min 60 (jsRound (p2.1 * mult + tierBonus)),
                  subjects := aLevelSubjects, vocational := vocationalResults,
                  destinations := destinations, year := "2024" }, p2.2)
      else (none, t2)
    ({ ks2 := ks2P.1, ks4 := ks4P.1, ks5 := ks5P.1 }, ks5P.2)

/-- The KS2 block of the Kent-variant performance generator, factored
out over an arbitrary entry state (definitionally the corresponding
let block of p4Performance). -/
def p4KS2 (s : School) (t : Nat) : Option KS2P4 × Nat :=
  let phase := s.phase
  let isPrivate := s.sector = "Private"
  let tier := p4BoroughTier s.borough
  let mult := ofstedMultiplier s.ofstedRating
  let tierBonus := (tier - 1) * 2
  if phase = "Primary" ∨ phase = "All-Through" ∨ phase = "Special" then
    let p1 := seededInt t 60 85
    let baseReading := min 100 (jsRound ((p1.1 + tierBonus) * mult))
    let p2 := seededInt p1.2 58 84
    let baseMaths := min 100 (jsRound ((p2.1 + tierBonus) * mult))
    let p3 := seededInt p2.2 56 82
    let baseWriting := min 100 (jsRound ((p3.1 + tierBonus) * mult))
    let p4g := seededInt p3.2 55 80
    let baseGPS := min 100 (jsRound ((p4g.1 + tierBonus) * mult))
    let combined := min 100 (jsRound ((baseReading + baseMaths + baseWriting) / 3 * 0.88))
    let pr1 := seededFloat p4g.2 (-2.5) 3.5 1
    let readingProgress := pr1.1
    let pr2 := seededFloat pr1.2 (-2.0) 3.8 1
    let mathsProgress := pr2.1
    let pr3 := seededFloat pr2.2 (-2.2) 3.2 1
    let writingProgress := pr3.1
    let ph1 := seededInt pr3.2 15 45
    let readingHigher := min (baseReading - 20) (max 5 ph1.1)
    let ph2 := seededInt ph1.2 12 40
    let mathsHigher := min (baseMaths - 20) (max 5 ph2.1)
    let ph3 := seededInt ph2.2 10 35
    let writingHigher := min (baseWriting - 25) (max 3 ph3.1)
    if isPrivate then
      let q1 := seededInt ph3.2 5 15
      let q2 := seededInt q1.2 5 15
      let q3 := seededInt q2.2 5 15
      let q4 := seededInt q3.2 5 15
      let q5 := seededInt q4.2 8 18
      let q6 := seededFloat q5.2 0.5 1.5 1
      let q7 := seededFloat q6.2 0.5 1.5 1
      let q8 := seededFloat q7.2 0.5 1.5 1
      let q9 := seededInt q8.2 10 20
      let q10 := seededInt q9.2 10 20
      let q11 := seededInt q10.2 8 15
      (some { readingExpected := min 100 (baseReading + q1.1),
              mathsExpected := min 100 (baseMaths + q2.1),
              writingExpected := min 100 (baseWriting + q3.1),
              gpsExpected := min 100 (baseGPS + q4.1),
              combinedExpected := min 100 (combined + q5.1),
              readingProgress := readingProgress + q6.1,
              mathsProgress := mathsProgress + q7.1,
              writingProgress := writingProgress + q8.1,
              readingHigher := min 70 (readingHigher + q9.1),
              mathsHigher := min 65 (mathsHigher + q10.1),
              writingHigher := min 55 (writingHigher + q11.1),
              year := "2024" }, q11.2)
    else
      (some { readingExpected := baseReading, mathsExpected := baseMaths,
              writingExpected := baseWriting, gpsExpected := baseGPS,
              combinedExpected := combined,
              readingProgress := readingProgress, mathsProgress := mathsProgress,
              writingProgress := writingProgress,
              readingHigher := readingHigher, mathsHigher := mathsHigher,
              writingHigher := writingHigher,
              year := "2024" }, ph3.2)
  else (none, t)

/-- The KS4 block of the Kent-variant performance generator, factored
out over an arbitrary entry state (definitionally the corresponding
let block of p4Performance). -/
def p4KS4 (s : School) (t1 : Nat) : Option KS4P4 × Nat :=
  let phase := s.phase
  let isPrivate := s.sector = "Private"
  let tier := p4BoroughTier s.borough
  let mult := ofstedMultiplier s.ofstedRating
  let tierBonus := (tier - 1) * 2
  if phase = "Secondary" ∨ phase = "All-Through" ∨ phase = "16 Plus" then
    let p1 := seededFloat t1 38 58 1
    let baseA8 := p1.1 + tierBonus * 1.2
    let p2 := seededFloat p1.2 (-0.3) 0.6 2
    let baseP8 := p2.1
    let p3 := seededInt p2.2 20 65
    let ebaccEntryV := p3.1 + tierBonus
    let p4e := seededFloat p3.2 3.2 5.8 1
    let ebaccAvgV := p4e.1
    let p5 := seededInt p4e.2 30 65
    let grade5 := p5.1 + tierBonus
    let sj (tt : Nat) (lo hi : ℤ) : ℚ × Nat :=
      let p := seededInt tt lo hi
      (min 100 (jsRound ((p.1 + tierBonus) * mult)), p.2)
    let s1 := sj p5.2 45 75
    let s2 := sj s1.2 42 72
    let s3 := sj s2.2 40 70
    let s4 := sj s3.2 48 78
    let s5 := sj s4.2 46 76
    let s6 := sj s5.2 35 68
    let s7 := sj s6.2 50 80
    let s8 := sj s7.2 52 82
    let s9 := sj s8.2 55 85
    let s10 := sj s9.2 38 68
    let s11 := sj s10.2 50 80
    let s12 := sj s11.2 45 75
    let subjectScores : List (String × ℚ) :=
      [("english", s1.1), ("maths", s2.1), ("science", s3.1), ("history", s4.1),
       ("geography", s5.1), ("modernLanguages", s6.1), ("art", s7.1), ("music", s8.1),
       ("pe", s9.1), ("computing", s10.1), ("drama", s11.1), ("dt", s12.1)]
    if isPrivate then
      let boosted := boostSubjectsInt 10 20 subjectScores s12.2
      let q1 := seededFloat boosted.2 55 75 1
      let q2 := seededFloat q1.2 0.1 0.8 2
      let q3 := seededInt q2.2 60 95
      let q4 := seededFloat q3.2 5.5 7.5 1
      let q5 := seededInt q4.2 65 92
      (some { attainment8 := min 90 q1.1, progress8 := q2.1,
              ebaccEntry := min 100 q3.1, ebaccAvg := q4.1,
              grade5EnMa := min 100 q5.1, subjects := boosted.1,
              year := "2024" }, q5.2)
    else
      (some { attainment8 := jsToFixed 1 (min 80 (baseA8 * mult)),
              progress8 := jsToFixed 2 (baseP8 * mult),
              ebaccEntry := min 100 (jsRound (ebaccEntryV * mult)),
              ebaccAvg := jsToFixed 1 (min 8 (ebaccAvgV * mult)),
              grade5EnMa := min 100 (jsRound (grade5 * mult)),
              subjects := subjectScores,
              year := "2024" }, s12.2)
  else (none, t1)

/-- The KS5 block of the Kent-variant performance generator, factored
out over an arbitrary entry state (definitionally the corresponding
let block of p4Performance). -/
def p4KS5 (s : School) (t2 : Nat) : Option KS5P4 × Nat :=
  let phase := s.phase
  let isPrivate := s.sector = "Private"
  let tier := p4BoroughTier s.borough
  let mult := ofstedMultiplier s.ofstedRating
  let tierBonus := (tier - 1) * 2
  if s.hasSixthForm ∧ (phase = "Secondary" ∨ phase = "All-Through" ∨ phase = "16 Plus") then
    let a1 := seededFloat t2 3.5 5.5 1
    let a2 := seededFloat a1.2 4.0 5.8 1
    let a3 := seededFloat a2.2 3.2 5.2 1
    let a4 := seededFloat a3.2 3.4 5.4 1
    let a5 := seededFloat a4.2 3.3 5.3 1
    let a6 := seededFloat a5.2 3.5 5.5 1
    let a7 := seededFloat a6.2 3.4 5.4 1
    let a8 := seededFloat a7.2 3.5 5.5 1
    let a9 := seededFloat a8.2 3.6 5.6 1
    let a10 := seededFloat a9.2 3.3 5.3 1
    let a11 := seededFloat a10.2 3.8 5.6 1
    let a12 := seededFloat a11.2 3.2 5.2 1
    let a13 := seededFloat a12.2 3.3 5.3 1
    let aLevelRaw : List (String × ℚ) :=
      [("maths", a1.1), ("furtherMaths", a2.1), ("english", a3.1), ("physics", a4.1),
       ("chemistry", a5.1), ("biology", a6.1), ("history", a7.1), ("geography", a8.1),
       ("economics", a9.1), ("psychology", a10.1), ("art", a11.1),
       ("modernLanguages", a12.1), ("computerScience", a13.1)]
    let aLevelSubjects := aLevelRaw.map
      (fun kv => (kv.1, jsToFixed 1 (min 6 ((kv.2 + tierBonus * 0.1) * mult))))
    let v1 := seededInt a13.2 30 70
    let v2 := seededInt v1.2 10 60
    let vocationalResults : List (String × ℚ) :=
      [("btecDistinctionRate", v1.1), ("vocationalEntries", v2.1)]
    let d1 := seededInt v2.2 40 85
    let d2 := seededInt d1.2 5 45
    let d3 := seededInt d2.2 0 15
    let d4 := seededInt d3.2 5 25
    let d5 := seededInt d4.2 5 20
    if isPrivate then
      let boosted := boostSubjectsFloat 0.3 0.8 1 aLevelSubjects d5.2
      let b1 := seededInt boosted.2 10 20
      let b2 := seededInt b1.2 15 30
      let b3 := seededInt b2.2 5 15
      let destinations : List (String × ℚ) :=
        [("university", min 98 (d1.1 + b1.1)), ("russellGroup", min 80 (d2.1 + b2.1)),
         ("oxbridge", min 40 (d3.1 + b3.1)), ("apprenticeship", d4.1),
         ("employment", d5.1)]
      let q1 := seededFloat b3.2 38 48 1
      let q2 := seededInt q1.2 25 55
      (some { averagePointScore := q1.1, aabOrHigher := q2.1,
              subjects := boosted.1, vocational := vocationalResults,
              destinations := destinations, year := "2024" }, q2.2)
    else
      let destinations : List (String × ℚ) :=
        [("university", d1.1), ("russellGroup", d2.1), ("oxbridge", d3.1),
         ("apprenticeship", d4.1), ("employment", d5.1)]
      let p1 := seededFloat d5.2 28 42 1
      let baseAPS := p1.1 + tierBonus * 0.5
      let p2 := seededInt p1.2 8 30
      (some { averagePointScore := jsToFixed 1 (min 50 (baseAPS * mult)),
              aabOrHigher := min 60 (jsRound (p2.1 * mult + tierBonus)),
              subjects := aLevelSubjects, vocational := vocationalResults,
              destinations := destinations, year := "2024" }, p2.2)
  else (none, t2)

/-- A fully enriched school in the Kent variant. -/
structure EnrichedP4 where
  base : School
  ofsted : Ofsted
  performance : Option PerformanceP4
  contact : ContactInfo
  admissions : Admissions4
  demographics : Demographics
  finances : Finances
  dataSources : DataSources
deriving DecidableEq

/-- enrichSchool from the Kent variant: identical orchestration to the
extract.js one (its ofsted and contact generators are byte-identical in
the two files and are shared here), but calling the variant performance,
admissions, demographics and finance generators. -/
def p4EnrichSchool (s : School) (m : String) (o : FetchOracle) : EnrichedP4 :=
  let t0 := seedState s
  let ofstedP : Ofsted × String × Nat :=
    match ofstedAttempt m o with
    | some r => ({ rating := r.rating, date := r.date, previousRating := none,
                   previousDate := none, report := some r.report, parentView := none },
                 "real", t0)
    | none =>
        let p := generateSyntheticOfsted s t0
        (p.1, "synthetic", p.2)
  let t1 := ofstedP.2.2
  let perfP : Option PerformanceP4 × String × Nat :=
    match performanceAttempt m o with
    | some _ => (none, "real", t1)
    | none =>
        let p := p4Performance s t1
        (some p.1, "synthetic", p.2)
  let t2 := perfP.2.2
  let contactP : ContactInfo × String × Nat :=
    match contactAttempt s m o with
    | some c => ({ phone := orNull c.phone, email := orNull c.email,
                   headteacher := orNull c.headteacher }, "real", t2)
    | none =>
        let p := generateSyntheticContact s t2
        (p.1, "synthetic", p.2)
  let t3 := contactP.2.2
  let admisP := p4Admissions s t3
  let demoP := p4Demographics s admisP.2
  let finP := p4Finances s demoP.2
  { base := s,
    ofsted := ofstedP.1,
    performance := perfP.1,
    contact := contactP.1,
    admissions := admisP.1,
    demographics := demoP.1,
    finances := finP.1,
    dataSources := { ofsted := ofstedP.2.1, performance := perfP.2.1,
                     contact := contactP.2.1, admissions := "synthetic",
                     demographics := "synthetic", finances := "synthetic" } }

-- ── The DB-export generators (server/db/export.js) ──────────────────

/-- A school row as read from the SQLite schools table by export.js. -/
structure DbSchool where
  urn : String
  name : String
  borough : String
  region : String
  phase : String
  religious_character : String
  funding_type : String
  ofsted_rating : String
  sector : String
  website : String
  pupils : ℤ
  has_sixth_form : Bool
deriving DecidableEq

/-- The export.js PRNG seed: parseInt(school.urn) || 100000. -/
def exportSeedState (urn : String) : Nat :=
  let seed : ℤ :=
    match jsParseInt urn with
    | some n => if n = 0 then 100000 else n
    | none => 100000
  ((seed + 0x6d2b79f5) % (pow32 : ℤ)).toNat

structure CriterionE where
  priority : ℚ
  category : String
  description : String
deriving DecidableEq

structure CatchYear where
  year : String
  lastDistance : ℚ
  offers : ℚ
deriving DecidableEq

structure CatchmentE where
  officialRadius : ℚ
  effectiveRadius : ℚ
  history : List CatchYear
deriving DecidableEq

structure OpenDayE where
  date : String
  time : String
  type : String
deriving DecidableEq

/-- The admissions record produced by export.js.  lastDistanceOffered is
always assigned (the effective radius), hence not an Option here. -/
structure AdmissionsE where
  year : String
  capacity : ℚ
  applications : Applications
  oversubscribed : Bool
  lastDistanceOffered : ℚ
  catchment : CatchmentE
  criteria : List CriterionE
  appeals : Appeals
  openDays : List OpenDayE
  applicationDeadline : String
deriving DecidableEq

/-- JS Array.prototype.splice(i, 0, x): insert at index i (appends when
the index is past the end, which never happens at the call sites). -/
def insertAt {α : Type} : ℕ → α → List α → List α
  | 0, x, l => x :: l
  | _ + 1, x, [] => [x]
  | n + 1, x, h :: tl => h :: insertAt n x tl

/-- The in-place priority overwrite criteria[i].priority = p. -/
def setPriorityAt : ℕ → ℚ → List CriterionE → List CriterionE
  | _, _, [] => []
  | 0, p, c :: tl => { c with priority := p } :: tl
  | n + 1, p, c :: tl => c :: setPriorityAt n p tl

/-- The forEach re-numbering criteria.forEach((c, i) => c.priority = i + 1). -/
def renumber (l : List CriterionE) : List CriterionE :=
  l.enum.map (fun ic => { ic.2 with priority := (ic.1 : ℚ) + 1 })

/-- The three-year catchment-history loop of generateAdmissionsData. -/
def exportCatchLoop (eff capacity : ℚ) : List ℕ → Nat → List CatchYear × Nat
  | [], t => ([], t)
  | y :: rest, t =>
      let pL := seededFloat t (eff * 0.8) (eff * 1.2) 3
      let pO := seededFloat pL.2 0.95 1.05 1
      let c : CatchYear := { year := toString y, lastDistance := pL.1,
                             offers := jsRound (capacity * pO.1) }
      let r := exportCatchLoop eff capacity rest pO.2
      (c :: r.1, r.2)

/-- The open-day month map of generateAdmissionsData. -/
def exportOpenDaysLoop : List String → Nat → List OpenDayE × Nat
  | [], t => ([], t)
  | mo :: rest, t =>
      let pD := seededInt t 5 25
      let pT := seededPick pD.2 ["9:30am", "10:00am", "2:00pm", "6:00pm"] ""
      let pY := seededPick pT.2 ["Open Morning", "Open Evening", "Tour"] ""
      let d : OpenDayE := { date := qIntStr pD.1 ++ " " ++ mo ++ " 2024",
                            time := pT.1, type := pY.1 }
      let r := exportOpenDaysLoop rest pY.2
      (d :: r.1, r.2)

/-- generateAdmissionsData from export.js. -/
def generateAdmissionsData (s : DbSchool) : AdmissionsE :=
  let t0 := exportSeedState s.urn
  let isPopular := s.ofsted_rating = "Outstanding" ∨ s.funding_type = "Grammar"
  let capacity : ℚ := if s.pupils = 0 then 200 else (s.pupils : ℚ)
  let pDM := if isPopular then seededFloat t0 2.5 5.0 1 else seededFloat t0 1.2 2.5 1
  let applicationsTotal := jsRound (capacity * pDM.1)
  let baseRadius : ℚ := if s.phase = "Primary" then 0.8 else 2.5
  let pOR := seededFloat pDM.2 (baseRadius * 0.8) (baseRadius * 1.5) 2
  let officialRadius := pOR.1
  let pER := if isPopular then seededFloat pOR.2 (officialRadius * 0.3) (officialRadius * 0.7) 2
             else seededFloat pOR.2 (officialRadius * 0.6) (officialRadius * 1.0) 2
  let effectiveRadius := pER.1
  let pCH := exportCatchLoop effectiveRadius capacity [2021, 2022, 2023] pER.2
  let criteria0 : List CriterionE :=
    [{ priority := 1, category := "Looked After Children",
       description := "Children in care or previously in care" },
     { priority := 2, category := "Siblings",
       description := "Children with siblings at the school" },
     { priority := 3, category := "Distance",
       description := "Proximity to school (straight line)" }]
  let criteria1 :=
    if s.religious_character ≠ "" ∧ s.religious_character ≠ "None" then
      setPriorityAt 3 4 (insertAt 2
        { priority := 3, category := "Faith",
          description := "Regular church attendance (" ++ s.religious_character ++ ")" }
        criteria0)
    else criteria0
  let criteria2 :=
    if s.funding_type = "Grammar" then
      renumber (insertAt 1
        { priority := 2, category := "Aptitude",
          description := "11+ examination performance" } criteria1)
    else criteria1
  let pOD := exportOpenDaysLoop ["September", "October", "November"] pCH.2
  let pF := seededFloat pOD.2 0.5 0.7 1
  let first := jsRound (applicationsTotal * pF.1)
  let pS := seededFloat pF.2 0.15 0.25 1
  let second := jsRound (applicationsTotal * pS.1)
  let pT := seededFloat pS.2 0.1 0.15 1
  let third := jsRound (applicationsTotal * pT.1)
  let pAL := if isPopular then seededInt pT.2 20 80 else seededInt pT.2 5 25
  let pAS := seededInt pAL.2 0 10
  { year := "2023", capacity := capacity,
    applications := { first := first, second := second, third := third,
                      total := applicationsTotal },
    oversubscribed := decide (applicationsTotal > capacity),
    lastDistanceOffered := effectiveRadius,
    catchment := { officialRadius := officialRadius,
                   effectiveRadius := effectiveRadius, history := pCH.1 },
    criteria := criteria2,
    appeals := { lodged := pAL.1, successful := pAS.1 },
    openDays := pOD.1,
    applicationDeadline := if s.phase = "Secondary" then "31 October 2024"
                           else "15 January 2025" }

structure EthnicitiesE where
  whitebritish : ℚ
  asian : ℚ
  black : ℚ
  mixed : ℚ
  other : ℚ
deriving DecidableEq

structure DemographicsE where
  fsmPercent : ℚ
  ealPercent : ℚ
  senPercent : ℚ
  ethnicities : EthnicitiesE
deriving DecidableEq

/-- generateDemographicsData from export.js.  Note: no normalization of
the ethnicity buckets and no special-casing of private schools. -/
def generateDemographicsData (s : DbSchool) : DemographicsE :=
  let t0 := exportSeedState s.urn
  let tier := exportBoroughTier s.borough
  let baseFsm : ℚ := if tier = 1 then 8 else if tier = 2 then 15 else if tier = 3 then 25 else 35
  let p1 := seededFloat t0 (baseFsm - 5) (baseFsm + 10) 1
  let p2 := seededFloat p1.2 15 60 1
  let p3 := seededFloat p2.2 8 20 1
  let e1 := seededInt p3.2 30 70
  let e2 := seededInt e1.2 5 30
  let e3 := seededInt e2.2 5 25
  let e4 := seededInt e3.2 5 15
  let e5 := seededInt e4.2 2 10
  { fsmPercent := p1.1, ealPercent := p2.1, senPercent := p3.1,
    ethnicities := { whitebritish := e1.1, asian := e2.1, black := e3.1,
                     mixed := e4.1, other := e5.1 } }

/-- generateFinanceData from export.js.  Note: the drawn ratio is stored
as-is and the teacher count has no minimum floor. -/
def generateFinanceData (s : DbSchool) : Finances :=
  let t0 := exportSeedState s.urn
  let tier := exportBoroughTier s.borough
  let baseFunding : ℚ := if s.phase = "Primary" then 4500 else 5500
  let tierAdjustment := (4 - tier) * 200
  let p1 := seededInt t0 (-300) 500
  let perPupilFunding := baseFunding + tierAdjustment + p1.1
  let pupils : ℚ := if s.pupils = 0 then 500 else (s.pupils : ℚ)
  let totalIncome := pupils * perPupilFunding
  let p2 := if s.phase = "Primary" then seededFloat p1.2 18 26 1 else seededFloat p1.2 14 20 1
  let ratioV := p2.1
  let teacherCount := jsRound (pupils / ratioV)
  { totalIncome := totalIncome, perPupilFunding := perPupilFunding,
    teacherCount := teacherCount, pupilTeacherRatio := ratioV }

/-- seededInt of export.js applied at rational bounds: the performance
generator passes bounds containing boost / 2 and boost / 3, which are
not integers for every boost, so the JS Math.floor(rng() * (max - min
+ 1)) + min is embedded over ℚ here.  On integer bounds this coincides
with seededInt. -/
def seededIntQ (t : Nat) (lo hi : ℚ) : ℚ × Nat :=
  let p := randQ t
  (((⌊p.1 * (hi - lo + 1)⌋ : ℤ) : ℚ) + lo, p.2)

structure KS2E where
  readingExpected : ℚ
  readingGreaterDepth : ℚ
  writingExpected : ℚ
  writingGreaterDepth : ℚ
  mathsExpected : ℚ
  mathsGreaterDepth : ℚ
  gpsExpected : ℚ
  combined : ℚ
  progressReading : ℚ
  progressWriting : ℚ
  progressMaths : ℚ
deriving DecidableEq

structure KS4E where
  attainment8 : ℚ
  progress8 : ℚ
  ebaccEntry : ℚ
  ebaccAvg : ℚ
  grade5EnMa : ℚ
  subjects : List (String × ℚ)
deriving DecidableEq

structure DestinationsE where
  university : ℚ
  russellGroup : ℚ
  oxbridge : ℚ
  apprenticeships : ℚ
  employment : ℚ
deriving DecidableEq

structure KS5E where
  avgPointScore : ℚ
  aabOrHigher : ℚ
  subjects : List (String × ℚ)
  destinations : DestinationsE
deriving DecidableEq

structure PerformanceE where
  year : String
  ks2 : Option KS2E
  ks4 : Option KS4E
  ks5 : Option KS5E
deriving DecidableEq

/-- generatePerformanceData from export.js.  Phase gating of this
generator: ks2 only for Primary; ks4 only for Secondary and
All-Through, with ks5 added when has_sixth_form; every other phase
(Nursery included) gets none of the three.  Draw order follows the
object literals of the source. -/
def generatePerformanceData (s : DbSchool) : PerformanceE :=
  let t0 := exportSeedState s.urn
  let tier := exportBoroughTier s.borough
  let isPrivate := s.sector = "Private"
  let isGrammar := s.funding_type = "Grammar"
  let isOutstanding := s.ofsted_rating = "Outstanding"
  let boost : ℚ := (if isPrivate then 15 else 0) + (if isGrammar then 12 else 0)
    + (if isOutstanding then 5 else 0)
  let tierBoost := (4 - tier) * 5
  if s.phase = "Primary" then
    let base := 60 + tierBoost + boost
    let p1 := seededIntQ t0 base (base + 20)
    let p2 := seededIntQ p1.2 15 40
    let p3 := seededIntQ p2.2 (base - 5) (base + 15)
    let p4 := seededIntQ p3.2 10 35
    let p5 := seededIntQ p4.2 base (base + 20)
    let p6 := seededIntQ p5.2 15 40
    let p7 := seededIntQ p6.2 base (base + 20)
    let p8 := seededIntQ p7.2 (base - 10) (base + 10)
    let p9 := seededFloat p8.2 (-1.5) 3.0 1
    let p10 := seededFloat p9.2 (-1.5) 3.0 1
    let p11 := seededFloat p10.2 (-1.5) 3.0 1
    { year := "2023",
      ks2 := some { readingExpected := min 95 p1.1, readingGreaterDepth := p2.1,
                    writingExpected := min 95 p3.1, writingGreaterDepth := p4.1,
                    mathsExpected := min 95 p5.1, mathsGreaterDepth := p6.1,
                    gpsExpected := min 95 p7.1, combined := min 90 p8.1,
                    progressReading := p9.1, progressWriting := p10.1,
                    progressMaths := p11.1 },
      ks4 := none, ks5 := none }
  else if s.phase = "Secondary" ∨ s.phase = "All-Through" then
    let baseA8 := 40 + tierBoost + boost
    let baseP8 := (tierBoost + boost) / 30
    let k1 := seededFloat t0 baseA8 (min 80 (baseA8 + 15)) 1
    let k2 := seededFloat k1.2 (baseP8 - 0.5) (min 1.5 (baseP8 + 0.5)) 1
    let k3 := seededIntQ k2.2 (20 + tierBoost) (min 95 (50 + tierBoost + boost))
    let k4 := seededFloat k3.2 (3.5 + tierBoost / 10)
      (min 7.5 (5.0 + tierBoost / 10 + boost / 10)) 1
    let k5 := seededIntQ k4.2 (30 + tierBoost + boost / 2) (min 95 (60 + tierBoost + boost))
    let s1 := seededFloat k5.2 4.0 7.5 1
    let s2 := seededFloat s1.2 4.0 7.5 1
    let s3 := seededFloat s2.2 4.0 7.0 1
    let s4 := seededFloat s3.2 4.0 7.0 1
    let s5 := seededFloat s4.2 4.0 7.0 1
    let s6 := seededFloat s5.2 3.5 7.0 1
    let s7 := seededFloat s6.2 4.5 7.5 1
    let s8 := seededFloat s7.2 4.5 7.5 1
    let s9 := seededFloat s8.2 5.0 7.5 1
    let s10 := seededFloat s9.2 4.0 7.0 1
    let s11 := seededFloat s10.2 4.5 7.5 1
    let s12 := seededFloat s11.2 4.0 7.0 1
    let ks4R : KS4E :=
      { attainment8 := k1.1, progress8 := k2.1, ebaccEntry := k3.1,
        ebaccAvg := k4.1, grade5EnMa := k5.1,
        subjects := [("english", s1.1), ("maths", s2.1), ("science", s3.1),
                     ("history", s4.1), ("geography", s5.1), ("languages", s6.1),
                     ("art", s7.1), ("music", s8.1), ("pe", s9.1),
                     ("computing", s10.1), ("drama", s11.1), ("business", s12.1)] }
    if s.has_sixth_form then
      let baseAPS := 30 + tierBoost + boost / 2
      let q1 := seededFloat s12.2 baseAPS (min 50 (baseAPS + 10)) 1
      let q2 := seededIntQ q1.2 (10 + tierBoost + boost / 2) (min 80 (30 + tierBoost + boost))
      let u1 := seededFloat q2.2 25 45 1
      let u2 := seededFloat u1.2 28 48 1
      let u3 := seededFloat u2.2 25 42 1
      let u4 := seededFloat u3.2 25 45 1
      let u5 := seededFloat u4.2 25 45 1
      let u6 := seededFloat u5.2 25 45 1
      let u7 := seededFloat u6.2 25 42 1
      let u8 := seededFloat u7.2 25 42 1
      let u9 := seededFloat u8.2 28 45 1
      let u10 := seededFloat u9.2 25 42 1
      let u11 := seededFloat u10.2 28 45 1
      let u12 := seededFloat u11.2 25 42 1
      let u13 := seededFloat u12.2 25 45 1
      let d1 := seededIntQ u13.2 (50 + tierBoost) (min 98 (75 + tierBoost + boost / 2))
      let d2 := seededIntQ d1.2 (10 + tierBoost + boost / 3) (min 80 (30 + tierBoost + boost / 2))
      let d3 := if isGrammar ∨ isPrivate then seededIntQ d2.2 5 25 else seededIntQ d2.2 0 8
      let d4 := seededIntQ d3.2 5 20
      let d5 := seededIntQ d4.2 2 15
      { year := "2023", ks2 := none, ks4 := some ks4R,
        ks5 := some { avgPointScore := q1.1, aabOrHigher := q2.1,
                      subjects := [("maths", u1.1), ("furtherMaths", u2.1),
                                   ("english", u3.1), ("physics", u4.1),
                                   ("chemistry", u5.1), ("biology", u6.1),
                                   ("history", u7.1), ("geography", u8.1),
                                   ("economics", u9.1), ("psychology", u10.1),
                                   ("art", u11.1), ("languages", u12.1),
                                   ("computerScience", u13.1)],
                      destinations := { university := d1.1, russellGroup := d2.1,
                                        oxbridge := d3.1, apprenticeships := d4.1,
                                        employment := d5.1 } } }
    else
      { year := "2023", ks2 := none, ks4 := some ks4R, ks5 := none }
  else { year := "2023", ks2 := none, ks4 := none, ks5 := none }

-- ── Percentage-range predicates and concrete inputs ────────────────

/-- A value lies in the percentage range [0, 100]. -/
def pct (x : ℚ) : Prop := 0 ≤ x ∧ x ≤ 100

/-- All Parent View percentages lie in [0, 100] (vacuous when absent). -/
def parentViewPct : Option ParentView → Prop
  | none => True
  | some pv => pct pv.recommend ∧ pct pv.happy ∧ pct pv.safe ∧ pct pv.bullying
      ∧ pct pv.behaviour ∧ pct pv.progress ∧ pct pv.teaching ∧ pct pv.leadership

/-- All KS2 expected-standard percentages lie in [0, 100]. -/
def ks2Pct : Option KS2 → Prop
  | none => True
  | some k => pct k.readingExpected ∧ pct k.mathsExpected
      ∧ pct k.writingExpected ∧ pct k.combinedExpected

/-- The KS4 percentage fields (EBacc entry and grade-5 share) lie in
[0, 100]; attainment8, progress8 and ebacc_avg are point scores, not
percentages. -/
def ks4Pct : Option KS4 → Prop
  | none => True
  | some k => pct k.ebaccEntry ∧ pct k.grade5EnMa

/-- The KS5 percentage field (share at AAB or higher) lies in [0, 100];
averagePointScore is a point score, not a percentage. -/
def ks5Pct : Option KS5 → Prop
  | none => True
  | some k => pct k.aabOrHigher

/-- Every destination share of a Kent-variant KS5 block lies in
[0, 100] (vacuous when ks5 is absent). -/
def destinationsPct4 : Option KS5P4 → Prop
  | none => True
  | some k => ∀ kv ∈ k.destinations, pct kv.2

/-- Every destination share of an export.js KS5 block lies in [0, 100]
(vacuous when ks5 is absent). -/
def destinationsPctE : Option KS5E → Prop
  | none => True
  | some k => pct k.destinations.university ∧ pct k.destinations.russellGroup
      ∧ pct k.destinations.oxbridge ∧ pct k.destinations.apprenticeships
      ∧ pct k.destinations.employment

/-- FSM, EAL, SEN and the five ethnicity buckets lie in [0, 100]. -/
def demographicsPct (d : Demographics) : Prop :=
  pct d.fsmPercent ∧ pct d.ealPercent ∧ pct d.senPercent
  ∧ pct d.ethnicities.white ∧ pct d.ethnicities.asian ∧ pct d.ethnicities.black
  ∧ pct d.ethnicities.mixed ∧ pct d.ethnicities.other

/-- An environment in which every network fetch fails (also the only
environment reachable in quick mode, where no fetch is attempted). -/
def emptyOracle : FetchOracle := { ofsted := none, performance := none, contact := none }

/-- A state primary school in Camden with URN 100005 (concrete test input). -/
def c2School : School :=
  { id := 1, urn := "100005", name := "Test School", borough := "Camden", type := "Primary",
    phase := "Primary", gender := "Mixed", religiousCharacter := "None",
    ofstedRating := "Good", ageRange := "3-11", pupils := 450, address := "",
    postcode := "", lat := none, lng := none, hasSixthForm := false,
    fundingType := "Community school", sector := "State", website := "" }

/-- A state nursery in Camden with URN 100000 (concrete test input). -/
def c3School : School :=
  { id := 1, urn := "100000", name := "Test Nursery", borough := "Camden", type := "Nursery",
    phase := "Nursery", gender := "Mixed", religiousCharacter := "None",
    ofstedRating := "Good", ageRange := "0-4", pupils := 60, address := "",
    postcode := "", lat := none, lng := none, hasSixthForm := false,
    fundingType := "Community school", sector := "State", website := "" }

/-- A state secondary school in Camden with URN 100000 (concrete test input). -/
def c6School : School :=
  { id := 1, urn := "100000", name := "Test Secondary", borough := "Camden", type := "Secondary",
    phase := "Secondary", gender := "Mixed", religiousCharacter := "None",
    ofstedRating := "Good", ageRange := "11-16", pupils := 800, address := "",
    postcode := "", lat := none, lng := none, hasSixthForm := false,
    fundingType := "Community school", sector := "State", website := "" }

/-- A Roman Catholic primary school (concrete test input for the
faith-criteria path). -/
def c8School : School :=
  { id := 1, urn := "100010", name := "St Test Primary", borough := "Camden", type := "Primary",
    phase := "Primary", gender := "Mixed", religiousCharacter := "Roman Catholic",
    ofstedRating := "Good", ageRange := "4-11", pupils := 420, address := "",
    postcode := "", lat := none, lng := none, hasSixthForm := false,
    fundingType := "Voluntary aided school", sector := "State", website := "" }

/-- A private primary school (concrete test input). -/
def c9XSchool : School :=
  { id := 1, urn := "100020", name := "Test Prep School", borough := "Camden", type := "Independent",
    phase := "Primary", gender := "Mixed", religiousCharacter := "None",
    ofstedRating := "N/A", ageRange := "4-11", pupils := 300, address := "",
    postcode := "", lat := none, lng := none, hasSixthForm := false,
    fundingType := "Other independent school", sector := "Private", website := "" }

/-- A DB row for a state primary school in Bromley (concrete test input
for the export generators). -/
def c5Db : DbSchool :=
  { urn := "100000", name := "Test Primary", borough := "Bromley", region := "London",
    phase := "Primary", religious_character := "None", funding_type := "Community school",
    ofsted_rating := "Good", sector := "State", website := "", pupils := 450,
    has_sixth_form := false }

/-- A DB row for a private school (concrete test input for the export
demographics generator). -/
def c9Db : DbSchool :=
  { urn := "100001", name := "Test Prep", borough := "Bromley", region := "London",
    phase := "Primary", religious_character := "None", funding_type := "Other independent school",
    ofsted_rating := "N/A", sector := "Private", website := "", pupils := 300,
    has_sixth_form := false }

/-- Two environments whose Ofsted fetches both succeed but return
different data; the performance and contact fetches fail in both. -/
def c1OracleA : FetchOracle :=
  { ofsted := some { rating := "Outstanding", date := some "12 May 2023",
                     report := "https://reports.ofsted.gov.uk/provider/100005" },
    performance := none, contact := none }

def c1OracleB : FetchOracle :=
  { ofsted := some { rating := "Good", date := none,
                     report := "https://reports.ofsted.gov.uk/provider/999" },
    performance := none, contact := none }

-- ── Bound lemmas for the PRNG and its derived draws ─────────────────

theorem mb32_fst_lt (t : Nat) : (mb32 t).1 < pow32 := by
  simp only [mb32]
  set t1 := ((Nat.xor t (t >>> 15)) * (t ||| 1)) % pow32 with ht1
  set inner := ((Nat.xor t1 (t1 >>> 7)) * (t1 ||| 61)) % pow32 with hinner
  have h1 : t1 < 2 ^ 32 := by
    rw [ht1]; exact Nat.mod_lt _ (by norm_num [pow32])
  have hs : (t1 + inner) % pow32 < 2 ^ 32 := Nat.mod_lt _ (by norm_num [pow32])
  have h2 : Nat.xor t1 ((t1 + inner) % pow32) < 2 ^ 32 := Nat.bitwise_lt h1 hs
  have h3 : (Nat.xor t1 ((t1 + inner) % pow32)) >>> 14 < 2 ^ 32 := by
    rw [Nat.shiftRight_eq_div_pow]
    exact lt_of_le_of_lt (Nat.div_le_self _ _) h2
  show Nat.xor _ _ < pow32
  exact Nat.bitwise_lt h2 h3

theorem randQ_nonneg (t : Nat) : 0 ≤ (randQ t).1 := by
  simp only [randQ]
  positivity

theorem randQ_lt_one (t : Nat) : (randQ t).1 < 1 := by
  have h := mb32_fst_lt t
  simp only [randQ]
  rw [div_lt_one (by norm_num [pow32])]
  exact_mod_cast h

theorem seededInt_mem (t : Nat) (lo hi : ℤ) (h : lo ≤ hi) :
    (lo : ℚ) ≤ (seededInt t lo hi).1 ∧ (seededInt t lo hi).1 ≤ (hi : ℚ) := by
  have hr0 := randQ_nonneg t
  have hr1 := randQ_lt_one t
  have hlo : (lo : ℚ) ≤ (hi : ℚ) := by exact_mod_cast h
  have hw : (0 : ℚ) < (hi : ℚ) - (lo : ℚ) + 1 := by linarith
  constructor
  · simp only [seededInt]
    have hfl : (0 : ℤ) ≤ ⌊(randQ t).1 * ((hi : ℚ) - (lo : ℚ) + 1)⌋ :=
      Int.floor_nonneg.mpr (by positivity)
    push_cast
    have : (0 : ℚ) ≤ (⌊(randQ t).1 * ((hi : ℚ) - (lo : ℚ) + 1)⌋ : ℚ) := by
      exact_mod_cast hfl
    linarith
  · simp only [seededInt]
    have hlt : (randQ t).1 * ((hi : ℚ) - (lo : ℚ) + 1) < ((hi - lo + 1 : ℤ) : ℚ) := by
      push_cast
      nlinarith
    have hfl : ⌊(randQ t).1 * ((hi : ℚ) - (lo : ℚ) + 1)⌋ ≤ hi - lo := by
      have := Int.floor_lt.mpr hlt
      omega
    have hq : (⌊(randQ t).1 * ((hi : ℚ) - (lo : ℚ) + 1)⌋ : ℚ) ≤ ((hi - lo : ℤ) : ℚ) := by
      exact_mod_cast hfl
    push_cast at hq ⊢
    linarith

/-- The rounded value jsToFixed d y stays in [lo, hi] when y does and
both endpoints are exactly representable with d decimal places. -/
theorem jsToFixed_mem (d : ℕ) (y lo hi : ℚ) (a b : ℤ)
    (hA : lo * 10 ^ d = (a : ℚ)) (hB : hi * 10 ^ d = (b : ℚ))
    (h1 : lo ≤ y) (h2 : y ≤ hi) :
    lo ≤ jsToFixed d y ∧ jsToFixed d y ≤ hi := by
  have hden : (0 : ℚ) < 10 ^ d := by positivity
  have hfl1 : a ≤ ⌊y * 10 ^ d + 1/2⌋ := by
    apply Int.le_floor.mpr
    rw [← hA]
    nlinarith
  have hfl2 : ⌊y * 10 ^ d + 1/2⌋ ≤ b := by
    have hx : y * 10 ^ d + 1/2 < ((b + 1 : ℤ) : ℚ) := by
      push_cast
      rw [← hB]
      nlinarith
    have := Int.floor_lt.mpr hx
    omega
  constructor
  · rw [jsToFixed, le_div_iff₀ hden, hA]
    exact_mod_cast hfl1
  · rw [jsToFixed, div_le_iff₀ hden, hB]
    exact_mod_cast hfl2

/-- The value drawn by seededFloat stays in [lo, hi] provided both
endpoints are exactly representable with d decimal places. -/
theorem seededFloat_mem (t : Nat) (lo hi : ℚ) (d : ℕ) (h : lo ≤ hi)
    (ha : ∃ a : ℤ, lo * 10 ^ d = (a : ℚ)) (hb : ∃ b : ℤ, hi * 10 ^ d = (b : ℚ)) :
    lo ≤ (seededFloat t lo hi d).1 ∧ (seededFloat t lo hi d).1 ≤ hi := by
  obtain ⟨a, hA⟩ := ha
  obtain ⟨b, hB⟩ := hb
  have hr0 := randQ_nonneg t
  have hr1 := randQ_lt_one t
  have hy1 : lo ≤ (randQ t).1 * (hi - lo) + lo := by nlinarith
  have hy2 : (randQ t).1 * (hi - lo) + lo ≤ hi := by nlinarith
  simpa only [seededFloat] using jsToFixed_mem d _ lo hi a b hA hB hy1 hy2

-- ── Elementary facts about jsRound ──────────────────────────────────

theorem jsRound_nonneg (q : ℚ) (h : 0 ≤ q) : 0 ≤ jsRound q := by
  rw [jsRound]
  have : (0 : ℤ) ≤ ⌊q + 1/2⌋ := Int.floor_nonneg.mpr (by linarith)
  exact_mod_cast this

theorem jsRound_le_int (q : ℚ) (n : ℤ) (h : q ≤ (n : ℚ)) : jsRound q ≤ (n : ℚ) := by
  rw [jsRound]
  have hx : q + 1/2 < ((n + 1 : ℤ) : ℚ) := by push_cast; linarith
  have := Int.floor_lt.mpr hx
  exact_mod_cast (by omega : ⌊q + 1/2⌋ ≤ n)

theorem jsRound_ge_int (q : ℚ) (n : ℤ) (h : (n : ℚ) ≤ q + 1/2) : (n : ℚ) ≤ jsRound q := by
  rw [jsRound]
  exact_mod_cast Int.le_floor.mpr h

theorem jsRound_mono {q q' : ℚ} (h : q ≤ q') : jsRound q ≤ jsRound q' := by
  rw [jsRound, jsRound]
  exact_mod_cast Int.floor_le_floor (by linarith)

theorem jsRound_le_add_half (q : ℚ) : jsRound q ≤ q + 1/2 := by
  rw [jsRound]
  exact Int.floor_le _

/-- jsRound of a rational is an integer-valued rational. -/
theorem jsRound_isInt (q : ℚ) : ∃ n : ℤ, jsRound q = (n : ℚ) := ⟨⌊q + 1/2⌋, rfl⟩

-- ── Lookup bound infrastructure ─────────────────────────────────────

theorem lookup_val_mem {α : Type} [BEq α] :
    ∀ (l : List (α × ℚ)) (k : α) (v : ℚ), l.lookup k = some v → v ∈ l.map Prod.snd := by
  intro l
  induction l with
  | nil => intro k v hv; simp [List.lookup] at hv
  | cons hd tl ih =>
      intro k v hv
      obtain ⟨k', v'⟩ := hd
      rw [List.lookup] at hv
      split at hv
      · cases hv
        simp [List.map]
      · simp only [List.map, List.mem_cons]
        right
        exact ih k v hv

theorem boroughTier_mem (b : String) : 1 ≤ boroughTier b ∧ boroughTier b ≤ 5 := by
  rw [boroughTier]
  cases h : BOROUGH_TIER.lookup b with
  | none => norm_num
  | some v =>
      have hv := lookup_val_mem BOROUGH_TIER b v h
      have : ∀ x ∈ BOROUGH_TIER.map Prod.snd, 1 ≤ x ∧ x ≤ 5 := by decide
      simpa using this v hv

theorem ofstedMultiplier_mem (r : String) :
    (0.68 : ℚ) ≤ ofstedMultiplier r ∧ ofstedMultiplier r ≤ 1.15 := by
  rw [ofstedMultiplier]
  cases h : OFSTED_MULTIPLIER.lookup r with
  | none => norm_num
  | some v =>
      have hv := lookup_val_mem OFSTED_MULTIPLIER r v h
      have : ∀ x ∈ OFSTED_MULTIPLIER.map Prod.snd, (0.68 : ℚ) ≤ x ∧ x ≤ 1.15 := by decide
      simpa using this v hv
set_option maxRecDepth 8000

theorem ethnicityDraw_other_nonneg (s : School) (t : Nat) :
    0 ≤ (ethnicityDraw s t).1.other := by
  rw [ethnicityDraw]
  split_ifs <;> simp

theorem normalizeEthnicities_sum (e : Ethnicities) (h : 0 ≤ e.other) :
    (normalizeEthnicities e).white + (normalizeEthnicities e).asian
      + (normalizeEthnicities e).black + (normalizeEthnicities e).mixed
      + (normalizeEthnicities e).other
    = max 100 ((normalizeEthnicities e).white + (normalizeEthnicities e).asian
        + (normalizeEthnicities e).black + (normalizeEthnicities e).mixed) := by
  rw [normalizeEthnicities]
  split_ifs with hT
  · simp only
    have hr : e.other + (100 - (e.white + e.asian + e.black + e.mixed + e.other))
        = 100 - (e.white + e.asian + e.black + e.mixed) := by ring
    rw [hr]
    rcases le_total (e.white + e.asian + e.black + e.mixed) 100 with h1 | h1
    · rw [max_eq_right (by linarith : (0:ℚ) ≤ 100 - (e.white + e.asian + e.black + e.mixed)),
        max_eq_left h1]
      ring
    · rw [max_eq_left (by linarith : 100 - (e.white + e.asian + e.black + e.mixed) ≤ (0:ℚ)),
        max_eq_right h1]
      ring
  · push_neg at hT
    rw [max_eq_left (by linarith : e.white + e.asian + e.black + e.mixed ≤ (100:ℚ))]
    linarith

/-- The export.js ethnicity block: five independent draws from fixed
ranges, so from any PRNG state the five buckets sum to something in
[47, 150]; nothing pins the sum to 100. -/
theorem export_eth_sum (u : Nat) :
    47 ≤ (seededInt u 30 70).1 + (seededInt (seededInt u 30 70).2 5 30).1
        + (seededInt (seededInt (seededInt u 30 70).2 5 30).2 5 25).1
        + (seededInt (seededInt (seededInt (seededInt u 30 70).2 5 30).2 5 25).2 5 15).1
        + (seededInt (seededInt (seededInt (seededInt (seededInt u 30 70).2 5 30).2 5 25).2 5 15).2 2 10).1
    ∧ (seededInt u 30 70).1 + (seededInt (seededInt u 30 70).2 5 30).1
        + (seededInt (seededInt (seededInt u 30 70).2 5 30).2 5 25).1
        + (seededInt (seededInt (seededInt (seededInt u 30 70).2 5 30).2 5 25).2 5 15).1
        + (seededInt (seededInt (seededInt (seededInt (seededInt u 30 70).2 5 30).2 5 25).2 5 15).2 2 10).1
      ≤ 150 := by
  have h1 := seededInt_mem u 30 70 (by norm_num)
  have h2 := seededInt_mem (seededInt u 30 70).2 5 30 (by norm_num)
  have h3 := seededInt_mem (seededInt (seededInt u 30 70).2 5 30).2 5 25 (by norm_num)
  have h4 := seededInt_mem (seededInt (seededInt (seededInt u 30 70).2 5 30).2 5 25).2 5 15 (by norm_num)
  have h5 := seededInt_mem (seededInt (seededInt (seededInt (seededInt u 30 70).2 5 30).2 5 25).2 5 15).2 2 10 (by norm_num)
  push_cast at h1 h2 h3 h4 h5
  exact ⟨by linarith [h1.1, h2.1, h3.1, h4.1, h5.1],
    by linarith [h1.2, h2.2, h3.2, h4.2, h5.2]⟩

/-- Claim C2 (amended): in the pipeline generator the adjust-the-
remainder normalization makes the five ethnicity buckets sum to
max(100, white + asian + black + mixed): exactly 100 whenever the four
non-other draws total at most 100, and strictly more when the floor at
0 on the other bucket bites.  The export.js generator has no
normalization at all: its five buckets are independent draws and their
sum merely lies in [47, 150]. -/
theorem c2_ethnicity_sum_amended :
    (∀ (s : School) (t : Nat),
      (generateSyntheticDemographics s t).1.ethnicities.white
        + (generateSyntheticDemographics s t).1.ethnicities.asian
        + (generateSyntheticDemographics s t).1.ethnicities.black
        + (generateSyntheticDemographics s t).1.ethnicities.mixed
        + (generateSyntheticDemographics s t).1.ethnicities.other
      = max 100 ((generateSyntheticDemographics s t).1.ethnicities.white
          + (generateSyntheticDemographics s t).1.ethnicities.asian
          + (generateSyntheticDemographics s t).1.ethnicities.black
          + (generateSyntheticDemographics s t).1.ethnicities.mixed))
    ∧ (∀ d : DbSchool,
      47 ≤ (generateDemographicsData d).ethnicities.whitebritish
          + (generateDemographicsData d).ethnicities.asian
          + (generateDemographicsData d).ethnicities.black
          + (generateDemographicsData d).ethnicities.mixed
          + (generateDemographicsData d).ethnicities.other
      ∧ (generateDemographicsData d).ethnicities.whitebritish
          + (generateDemographicsData d).ethnicities.asian
          + (generateDemographicsData d).ethnicities.black
          + (generateDemographicsData d).ethnicities.mixed
          + (generateDemographicsData d).ethnicities.other
        ≤ 150) := by
  constructor
  · intro s t
    show (normalizeEthnicities _).white + _ + _ + _ + _ = _
    exact normalizeEthnicities_sum _ (ethnicityDraw_other_nonneg s _)
  · intro d
    rw [generateDemographicsData]
    dsimp only
    exact export_eth_sum _

/-- Claim C2 (counterexample): for the Camden primary school with URN
100005 the quick-mode enrichment produces ethnicity buckets summing to
108, not 100; and the export.js generator, which never normalizes,
produces buckets summing to 110 for the Bromley row with URN 100000. -/
theorem c2_ethnicity_sum_counterexample :
    ((enrichSchool c2School "quick" emptyOracle).demographics.ethnicities.white
      + (enrichSchool c2School "quick" emptyOracle).demographics.ethnicities.asian
      + (enrichSchool c2School "quick" emptyOracle).demographics.ethnicities.black
      + (enrichSchool c2School "quick" emptyOracle).demographics.ethnicities.mixed
      + (enrichSchool c2School "quick" emptyOracle).demographics.ethnicities.other
    ≠ 100)
    ∧ ((generateDemographicsData c5Db).ethnicities.whitebritish
      + (generateDemographicsData c5Db).ethnicities.asian
      + (generateDemographicsData c5Db).ethnicities.black
      + (generateDemographicsData c5Db).ethnicities.mixed
      + (generateDemographicsData c5Db).ethnicities.other
    ≠ 100) := by
  constructor
  · decide
  · decide

/-- p4Performance, split into its nursery early-return and the three
factored key-stage blocks (definitional). -/
theorem p4_split (s : School) (t : Nat) : p4Performance s t =
    if s.phase = "Nursery" ∨ s.phase = "Reception" then
      ({ ks2 := none, ks4 := none, ks5 := none }, t)
    else
      ({ ks2 := (p4KS2 s t).1, ks4 := (p4KS4 s (p4KS2 s t).2).1,
         ks5 := (p4KS5 s (p4KS4 s (p4KS2 s t).2).2).1 },
       (p4KS5 s (p4KS4 s (p4KS2 s t).2).2).2) := rfl

theorem p4KS2_isSome (s : School) (u : Nat) :
    (p4KS2 s u).1.isSome = true
      ↔ (s.phase = "Primary" ∨ s.phase = "All-Through" ∨ s.phase = "Special") := by
  rw [p4KS2]
  dsimp only
  split_ifs with h hp
  · exact iff_of_true rfl h
  · exact iff_of_true rfl h
  · exact iff_of_false (by simp) h

theorem p4KS4_isSome (s : School) (u : Nat) :
    (p4KS4 s u).1.isSome = true
      ↔ (s.phase = "Secondary" ∨ s.phase = "All-Through" ∨ s.phase = "16 Plus") := by
  rw [p4KS4]
  dsimp only
  split_ifs with h hp
  · exact iff_of_true rfl h
  · exact iff_of_true rfl h
  · exact iff_of_false (by simp) h

theorem p4KS5_isSome (s : School) (u : Nat) :
    (p4KS5 s u).1.isSome = true
      ↔ (s.hasSixthForm = true
          ∧ (s.phase = "Secondary" ∨ s.phase = "All-Through" ∨ s.phase = "16 Plus")) := by
  rw [p4KS5]
  dsimp only
  split_ifs with h hp
  · exact iff_of_true rfl h
  · exact iff_of_true rfl h
  · exact iff_of_false (by simp) h

set_option maxHeartbeats 1600000

/-- Claim C4: phase gating of the synthetic performance record, in all
three generators.  Pipeline (extract.js) and Kent variant (part_004):
ks2 is present exactly for Primary, All-Through and Special; ks4
exactly for Secondary, All-Through and 16 Plus; ks5 exactly when the
school has a sixth form and the phase qualifies for ks4.  DB export
(export.js): ks2 exactly for Primary; ks4 exactly for Secondary and
All-Through; ks5 exactly for those phases with a sixth form — strict
subsets of the claimed phase sets, so "populated only when" holds
there too.  In each generator a Nursery record has all three blocks
null and a Primary record has ks2 non-null with ks4 and ks5 null. -/
theorem c4_phase_gating :
    (∀ (s : School) (t : Nat),
      ((generateSyntheticPerformance s t).1.ks2.isSome = true
        ↔ (s.phase = "Primary" ∨ s.phase = "All-Through" ∨ s.phase = "Special"))
      ∧ ((generateSyntheticPerformance s t).1.ks4.isSome = true
        ↔ (s.phase = "Secondary" ∨ s.phase = "All-Through" ∨ s.phase = "16 Plus"))
      ∧ ((generateSyntheticPerformance s t).1.ks5.isSome = true
        ↔ (s.hasSixthForm = true
            ∧ (s.phase = "Secondary" ∨ s.phase = "All-Through" ∨ s.phase = "16 Plus"))))
    ∧ (∀ (s : School) (t : Nat),
      ((p4Performance s t).1.ks2.isSome = true
        ↔ (s.phase = "Primary" ∨ s.phase = "All-Through" ∨ s.phase = "Special"))
      ∧ ((p4Performance s t).1.ks4.isSome = true
        ↔ (s.phase = "Secondary" ∨ s.phase = "All-Through" ∨ s.phase = "16 Plus"))
      ∧ ((p4Performance s t).1.ks5.isSome = true
        ↔ (s.hasSixthForm = true
            ∧ (s.phase = "Secondary" ∨ s.phase = "All-Through" ∨ s.phase = "16 Plus"))))
    ∧ (∀ d : DbSchool,
      ((generatePerformanceData d).ks2.isSome = true ↔ d.phase = "Primary")
      ∧ ((generatePerformanceData d).ks4.isSome = true
        ↔ (d.phase = "Secondary" ∨ d.phase = "All-Through"))
      ∧ ((generatePerformanceData d).ks5.isSome = true
        ↔ ((d.phase = "Secondary" ∨ d.phase = "All-Through")
            ∧ d.has_sixth_form = true))) := by
  refine ⟨?_, ?_, ?_⟩
  · intro s t
    rw [generateSyntheticPerformance]
    by_cases hN : s.phase = "Nursery" ∨ s.phase = "Reception"
    · rw [if_pos hN]
      rcases hN with h | h <;> simp [h]
    · rw [if_neg hN]
      push_neg at hN
      by_cases h2 : s.phase = "Primary" ∨ s.phase = "All-Through" ∨ s.phase = "Special" <;>
        by_cases h4 : s.phase = "Secondary" ∨ s.phase = "All-Through" ∨ s.phase = "16 Plus" <;>
          by_cases h5 : s.hasSixthForm = true <;>
            simp_all <;> split_ifs <;> simp_all
  · intro s t
    rw [p4_split]
    by_cases hN : s.phase = "Nursery" ∨ s.phase = "Reception"
    · rw [if_pos hN]
      refine ⟨iff_of_false (by simp) ?_, iff_of_false (by simp) ?_,
        iff_of_false (by simp) ?_⟩ <;>
        rcases hN with h | h <;> simp [h]
    · rw [if_neg hN]
      exact ⟨p4KS2_isSome s _, p4KS4_isSome s _, p4KS5_isSome s _⟩
  · intro d
    rw [generatePerformanceData]
    by_cases h1 : d.phase = "Primary"
    · rw [if_pos h1]
      exact ⟨iff_of_true rfl h1, iff_of_false (by simp) (by simp [h1]),
        iff_of_false (by simp) (by simp [h1])⟩
    · rw [if_neg h1]
      by_cases h2 : d.phase = "Secondary" ∨ d.phase = "All-Through"
      · rw [if_pos h2]
        by_cases h3 : d.has_sixth_form = true
        · rw [if_pos h3]
          exact ⟨iff_of_false (by simp) h1, iff_of_true rfl h2,
            iff_of_true rfl ⟨h2, h3⟩⟩
        · rw [if_neg h3]
          exact ⟨iff_of_false (by simp) h1, iff_of_true rfl h2,
            iff_of_false (by simp) (fun hc => h3 hc.2)⟩
      · rw [if_neg h2]
        exact ⟨iff_of_false (by simp) h1, iff_of_false (by simp) h2,
          iff_of_false (by simp) (fun hc => h2 hc.1)⟩

set_option maxHeartbeats 200000

theorem floor_shares_le (T : ℤ) (hT : 15 ≤ T) :
    ⌊(T : ℚ) * 0.6 + 1/2⌋ + ⌊(T : ℚ) * 0.35 + 1/2⌋ ≤ T := by
  rcases le_or_lt 20 T with h20 | h20
  · have f1 : ((⌊(T : ℚ) * 0.6 + 1/2⌋ : ℤ) : ℚ) ≤ (T : ℚ) * 0.6 + 1/2 := Int.floor_le _
    have f2 : ((⌊(T : ℚ) * 0.35 + 1/2⌋ : ℤ) : ℚ) ≤ (T : ℚ) * 0.35 + 1/2 := Int.floor_le _
    have hTq : (20 : ℚ) ≤ (T : ℚ) := by exact_mod_cast h20
    have hs : ((⌊(T : ℚ) * 0.6 + 1/2⌋ + ⌊(T : ℚ) * 0.35 + 1/2⌋ : ℤ) : ℚ) ≤ (T : ℚ) := by
      push_cast
      norm_num at f1 f2 ⊢
      linarith
    exact_mod_cast hs
  · interval_cases T <;> decide

/-- In the non-Nursery admissions model, the first and second preference
shares rounded from a total of at least 15 leave a nonnegative residual,
so the three preferences sum exactly to the total. -/
theorem admissions_shares_exact (I df dm f1 f2 : ℚ)
    (hI : (15 : ℚ) ≤ I) (hdf : (1.5 : ℚ) ≤ df) (hdm : (0.68 : ℚ) ≤ dm)
    (hf1b : f1 ≤ 0.6) (hf2b : f2 ≤ 0.35) :
    jsRound (jsRound (I * df * dm) * f1) + jsRound (jsRound (I * df * dm) * f2)
      + max 0 (jsRound (I * df * dm) - jsRound (jsRound (I * df * dm) * f1)
          - jsRound (jsRound (I * df * dm) * f2))
    = jsRound (I * df * dm) := by
  have hx1 : (22.5 : ℚ) ≤ I * df := by nlinarith
  have hx : (15.3 : ℚ) ≤ I * df * dm := by nlinarith [hx1]
  have hTdef : jsRound (I * df * dm) = ((⌊I * df * dm + 1/2⌋ : ℤ) : ℚ) := rfl
  set TZ := ⌊I * df * dm + 1/2⌋ with hTZ
  have hT15 : (15 : ℤ) ≤ TZ := by
    rw [hTZ]
    apply Int.le_floor.mpr
    push_cast
    norm_num at hx
    linarith
  have hT0 : (0 : ℚ) ≤ (TZ : ℚ) := by
    have : ((15 : ℤ) : ℚ) ≤ (TZ : ℚ) := by exact_mod_cast hT15
    push_cast at this
    linarith
  have hF : jsRound ((TZ : ℚ) * f1) ≤ ((⌊(TZ : ℚ) * 0.6 + 1/2⌋ : ℤ) : ℚ) :=
    jsRound_mono (by nlinarith)
  have hS : jsRound ((TZ : ℚ) * f2) ≤ ((⌊(TZ : ℚ) * 0.35 + 1/2⌋ : ℤ) : ℚ) :=
    jsRound_mono (by nlinarith)
  have key := floor_shares_le TZ hT15
  have keyQ : ((⌊(TZ : ℚ) * 0.6 + 1/2⌋ : ℤ) : ℚ) + ((⌊(TZ : ℚ) * 0.35 + 1/2⌋ : ℤ) : ℚ)
      ≤ (TZ : ℚ) := by exact_mod_cast key
  rw [hTdef]
  have hsum : jsRound ((TZ : ℚ) * f1) + jsRound ((TZ : ℚ) * f2) ≤ (TZ : ℚ) := by linarith
  rw [max_eq_right (by linarith)]
  ring

/-- Claim C3 (amended): for every non-Nursery record the three
preference counts sum exactly to the total, the third preference being
the residual (whose floor at 0 never bites). -/
theorem c3_admissions_sum_amended : ∀ (s : School) (t : Nat), s.phase ≠ "Nursery" →
    (generateSyntheticAdmissions s t).1.applications.first
      + (generateSyntheticAdmissions s t).1.applications.second
      + (generateSyntheticAdmissions s t).1.applications.third
    = (generateSyntheticAdmissions s t).1.applications.total := by
  intro s t hN
  have hdm : (0.68 : ℚ) ≤ ofstedMultiplier s.ofstedRating
      * (1 + (boroughTier s.borough - 1) * 0.15) := by
    have hm := ofstedMultiplier_mem s.ofstedRating
    have ht := boroughTier_mem s.borough
    nlinarith [hm.1, ht.1]
  simp only [generateSyntheticAdmissions, if_neg hN]
  exact admissions_shares_exact _ _ _ _ _ (le_max_left _ _)
    (seededFloat_mem t 1.5 4.0 1 (by norm_num) ⟨15, by norm_num⟩ ⟨40, by norm_num⟩).1
    hdm
    (seededFloat_mem _ 0.45 0.6 2 (by norm_num) ⟨45, by norm_num⟩ ⟨60, by norm_num⟩).2
    (seededFloat_mem _ 0.2 0.35 2 (by norm_num) ⟨20, by norm_num⟩ ⟨35, by norm_num⟩).2

/-- Witness for C3 (amended) at the Camden primary c2School. -/
theorem c3_admissions_sum_witness :
    c2School.phase ≠ "Nursery"
    ∧ (generateSyntheticAdmissions c2School 12345).1.applications.first
        + (generateSyntheticAdmissions c2School 12345).1.applications.second
        + (generateSyntheticAdmissions c2School 12345).1.applications.third
      = (generateSyntheticAdmissions c2School 12345).1.applications.total :=
  ⟨by decide, c3_admissions_sum_amended c2School 12345 (by decide)⟩

/-- Claim C3 (counterexample): for the Camden nursery with URN 100000
the quick-mode enrichment rounds the three preference shares
independently: 75 + 38 + 23 = 136, but the total is 137; and the
export.js generator rounds all three shares independently for every
phase: for the Bromley Primary row with URN 100000 it gives
405 + 162 + 81 = 648 against a total of 810. -/
theorem c3_admissions_sum_counterexample :
    ((enrichSchool c3School "quick" emptyOracle).admissions.applications.first
      + (enrichSchool c3School "quick" emptyOracle).admissions.applications.second
      + (enrichSchool c3School "quick" emptyOracle).admissions.applications.third
    ≠ (enrichSchool c3School "quick" emptyOracle).admissions.applications.total)
    ∧ ((generateAdmissionsData c5Db).applications.first
      + (generateAdmissionsData c5Db).applications.second
      + (generateAdmissionsData c5Db).applications.third
    ≠ (generateAdmissionsData c5Db).applications.total) := by
  constructor
  · decide
  · decide

/-- The value of a seededFloat draw each of whose raw values lies
strictly below a cap that is exactly representable with d decimals never
rounds past the cap. -/
theorem seededFloat_le_cap (t : Nat) (lo hi cap : ℚ) (d : ℕ) (m : ℤ)
    (hcap : cap * 10 ^ d = (m : ℚ)) (hlo : lo < hi) (hhi : hi ≤ cap) :
    (seededFloat t lo hi d).1 ≤ cap := by
  have hr0 := randQ_nonneg t
  have hr1 := randQ_lt_one t
  have hden : (0 : ℚ) < 10 ^ d := by positivity
  have hy : (randQ t).1 * (hi - lo) + lo < cap := by nlinarith
  simp only [seededFloat, jsToFixed]
  have h1 : ((randQ t).1 * (hi - lo) + lo) * 10 ^ d < (m : ℚ) := by
    rw [← hcap]
    nlinarith
  have h2 : ⌊((randQ t).1 * (hi - lo) + lo) * 10 ^ d + 1/2⌋ ≤ m := by
    have := Int.floor_lt.mpr (by push_cast; linarith :
      ((randQ t).1 * (hi - lo) + lo) * 10 ^ d + 1/2 < ((m + 1 : ℤ) : ℚ))
    omega
  rw [div_le_iff₀ hden, hcap]
  exact_mod_cast h2

/-- Every seededFloat value is an integer multiple of 10 ^ (-d). -/
theorem seededFloat_rep (t : Nat) (lo hi : ℚ) (d : ℕ) :
    ∃ m : ℤ, (seededFloat t lo hi d).1 * 10 ^ d = (m : ℚ) := by
  refine ⟨⌊((randQ t).1 * (hi - lo) + lo) * 10 ^ d + 1/2⌋, ?_⟩
  have hden : (10 : ℚ) ^ d ≠ 0 := by positivity
  simp only [seededFloat, jsToFixed]
  field_simp

/-- Claim C6 (amended): in the Kent-variant admissions generator an
oversubscribed record always carries a non-null lastDistanceOffered; in
the DB-export admissions generator the effective catchment radius never
exceeds the official radius (and lastDistanceOffered is always set
there, equal to the effective radius). -/
theorem c6_oversub_amended :
    (∀ (s : School) (t : Nat), (p4Admissions s t).1.oversubscribed = true →
        ((p4Admissions s t).1.lastDistanceOffered).isSome = true)
    ∧ (∀ s : DbSchool,
        (generateAdmissionsData s).catchment.effectiveRadius
          ≤ (generateAdmissionsData s).catchment.officialRadius
        ∧ (generateAdmissionsData s).lastDistanceOffered
          = (generateAdmissionsData s).catchment.effectiveRadius) := by
  constructor
  · intro s t hov
    by_cases hN : s.phase = "Nursery"
    · simp only [p4Admissions, if_pos hN] at hov ⊢
      rw [decide_eq_true_iff] at hov
      rw [if_pos hov]
      rfl
    · simp only [p4Admissions, if_neg hN] at hov ⊢
      rw [decide_eq_true_iff] at hov
      rw [if_pos hov]
      rfl
  · intro s
    refine ⟨?_, rfl⟩
    have hb : (0.8 : ℚ) ≤ (if s.phase = "Primary" then (0.8 : ℚ) else 2.5) := by
      split_ifs <;> norm_num
    simp only [generateAdmissionsData]
    set t2 := (if s.ofsted_rating = "Outstanding" ∨ s.funding_type = "Grammar"
      then seededFloat (exportSeedState s.urn) 2.5 5.0 1
      else seededFloat (exportSeedState s.urn) 1.2 2.5 1).2 with ht2
    set b := (if s.phase = "Primary" then (0.8 : ℚ) else 2.5) with hbdef
    have hoffmem : b * 0.8 ≤ (seededFloat t2 (b * 0.8) (b * 1.5) 2).1
        ∧ (seededFloat t2 (b * 0.8) (b * 1.5) 2).1 ≤ b * 1.5 := by
      rw [hbdef]
      split_ifs
      · exact seededFloat_mem t2 (0.8 * 0.8) (0.8 * 1.5) 2 (by norm_num)
          ⟨64, by norm_num⟩ ⟨120, by norm_num⟩
      · exact seededFloat_mem t2 (2.5 * 0.8) (2.5 * 1.5) 2 (by norm_num)
          ⟨200, by norm_num⟩ ⟨375, by norm_num⟩
    set off := (seededFloat t2 (b * 0.8) (b * 1.5) 2).1 with hoff
    have hoffpos : 0 < off := by
      have : (0.64 : ℚ) ≤ b * 0.8 := by rw [hbdef]; split_ifs <;> norm_num
      linarith [hoffmem.1]
    obtain ⟨M, hM⟩ := seededFloat_rep t2 (b * 0.8) (b * 1.5) 2
    rw [← hoff] at hM
    split_ifs with hPop
    · exact seededFloat_le_cap _ (off * 0.3) (off * 0.7) off 2 M hM
        (by nlinarith) (by nlinarith)
    · exact seededFloat_le_cap _ (off * 0.6) (off * 1.0) off 2 M hM
        (by nlinarith) (by nlinarith)

/-- Witness for C6 (amended) at the Camden secondary c6School (Kent
variant) and the Bromley export record c5Db. -/
theorem c6_oversub_witness :
    ((p4Admissions c6School 1000).1.oversubscribed = true
      ∧ ((p4Admissions c6School 1000).1.lastDistanceOffered).isSome = true)
    ∧ ((generateAdmissionsData c5Db).catchment.effectiveRadius
          ≤ (generateAdmissionsData c5Db).catchment.officialRadius
        ∧ (generateAdmissionsData c5Db).lastDistanceOffered
          = (generateAdmissionsData c5Db).catchment.effectiveRadius) :=
  ⟨⟨by decide, c6_oversub_amended.1 c6School 1000 (by decide)⟩,
   c6_oversub_amended.2 c5Db⟩

/-- Claim C6 (counterexample): the Kent-variant pipeline run on the
Camden secondary school with URN 100000 yields an oversubscribed
admissions record whose effective radius (2.32 km) exceeds the official
radius (1.99 km). -/
theorem c6_oversub_counterexample :
    (p4EnrichSchool c6School "quick" emptyOracle).admissions.oversubscribed = true
    ∧ ((p4EnrichSchool c6School "quick" emptyOracle).admissions.catchment.map
        (fun c => decide (c.effectiveRadius ≤ c.officialRadius))) = some false := by
  constructor
  · decide
  · decide


/-- Claim C10: enrichment only adds sub-record fields, leaving every
base field of the input record unchanged, and the output writer removes
exactly the _dataSources field. -/
theorem c10_frame_effect : ∀ (s : School) (m : String) (o : FetchOracle),
    (enrichSchool s m o).base = s
    ∧ (∀ e : Enriched, (stripDataSources e).base = e.base
        ∧ (stripDataSources e).ofsted = e.ofsted
        ∧ (stripDataSources e).performance = e.performance
        ∧ (stripDataSources e).contact = e.contact
        ∧ (stripDataSources e).admissions = e.admissions
        ∧ (stripDataSources e).demographics = e.demographics
        ∧ (stripDataSources e).finances = e.finances) := by
  intro s m o
  exact ⟨rfl, fun e => ⟨rfl, rfl, rfl, rfl, rfl, rfl, rfl⟩⟩

/-- Claim C5 (amended): in the pipeline finance generator the stored
pupil-teacher ratio is recomputed from the stored (floored,
minimum-enforced) teacher count: it equals pupils divided by
teacherCount, rounded to one decimal place. -/
theorem c5_finance_recompute_amended : ∀ (s : School) (t : Nat),
    (generateSyntheticFinances s t).1.pupilTeacherRatio
      = jsToFixed 1 ((if s.pupils = 0 then (100 : ℚ) else (s.pupils : ℚ))
          / (generateSyntheticFinances s t).1.teacherCount) := by
  intro s t
  simp only [generateSyntheticFinances]
  split_ifs <;> rfl

/-- Claim C5 (counterexample): the DB-export finance generator stores
the originally drawn ratio, which at URN 100000 (Bromley, Primary, 450
pupils) differs from pupils / teacherCount rounded to one decimal. -/
theorem c5_finance_counterexample :
    (generateFinanceData c5Db).pupilTeacherRatio
      ≠ jsToFixed 1 ((c5Db.pupils : ℚ) / (generateFinanceData c5Db).teacherCount) := by
  decide

/-- Claim C9 (amended): the pipeline demographics generator forces
fsmPercent to 0 for every private-sector school. -/
theorem c9_private_fsm_amended : ∀ (s : School) (t : Nat),
    s.sector = "Private" → (generateSyntheticDemographics s t).1.fsmPercent = 0 := by
  intro s t h
  simp only [generateSyntheticDemographics, h]
  rfl

/-- Witness for C9 (amended) at the private school c9XSchool. -/
theorem c9_private_fsm_witness :
    c9XSchool.sector = "Private"
    ∧ (generateSyntheticDemographics c9XSchool 7).1.fsmPercent = 0 :=
  ⟨rfl, c9_private_fsm_amended c9XSchool 7 rfl⟩

/-- Claim C9 (counterexample): the DB-export demographics generator
ignores the sector; for the private school c9Db it produces a nonzero
fsmPercent. -/
theorem c9_private_fsm_counterexample :
    c9Db.sector = "Private" ∧ (generateDemographicsData c9Db).fsmPercent ≠ 0 := by
  constructor
  · rfl
  · decide

/-- Claim C8 (amended): in the DB-export admissions generator the
criteria list always starts with the Looked-After-Children criterion at
priority 1, a Faith criterion appears exactly when religious_character
is non-empty and not None, an Aptitude criterion exactly for Grammar
funding, and after the insertions the final priority numbers equal the
list positions plus one. -/
theorem c8_criteria_amended : ∀ s : DbSchool,
    ((generateAdmissionsData s).criteria.map (fun x => x.priority)
      = (List.range (generateAdmissionsData s).criteria.length).map (fun i => ((i : ℚ) + 1)))
    ∧ (∃ hd, (generateAdmissionsData s).criteria.head? = some hd
        ∧ hd.category = "Looked After Children" ∧ hd.priority = 1)
    ∧ (((generateAdmissionsData s).criteria.filter
          (fun x => x.category == "Faith")).length > 0
        ↔ (s.religious_character ≠ "" ∧ s.religious_character ≠ "None"))
    ∧ (((generateAdmissionsData s).criteria.filter
          (fun x => x.category == "Aptitude")).length > 0
        ↔ s.funding_type = "Grammar") := by
  intro s
  by_cases hF : s.religious_character ≠ "" ∧ s.religious_character ≠ "None"
  · by_cases hG : s.funding_type = "Grammar"
    · refine ⟨?_, ?_, ?_, ?_⟩ <;> simp only [generateAdmissionsData] <;>
        rw [if_pos hF, if_pos hG]
      · norm_num [insertAt, setPriorityAt, renumber, List.enum, List.enumFrom,
          List.range_succ]
      · exact ⟨_, rfl, rfl, by norm_num [renumber, insertAt, setPriorityAt,
          List.enum, List.enumFrom]⟩
      · simp [insertAt, setPriorityAt, renumber, List.enum, List.enumFrom,
          List.filter, hF.1, hF.2]
      · simp [insertAt, setPriorityAt, renumber, List.enum, List.enumFrom,
          List.filter, hG]
    · refine ⟨?_, ?_, ?_, ?_⟩ <;> simp only [generateAdmissionsData] <;>
        rw [if_pos hF, if_neg hG]
      · norm_num [insertAt, setPriorityAt, renumber, List.enum, List.enumFrom,
          List.range_succ]
      · exact ⟨_, rfl, rfl, rfl⟩
      · simp [insertAt, setPriorityAt, List.filter, hF.1, hF.2]
      · simp [insertAt, setPriorityAt, List.filter, hG]
  · by_cases hG : s.funding_type = "Grammar"
    · refine ⟨?_, ?_, ?_, ?_⟩ <;> simp only [generateAdmissionsData] <;>
        rw [if_neg hF, if_pos hG]
      · norm_num [insertAt, setPriorityAt, renumber, List.enum, List.enumFrom,
          List.range_succ]
      · exact ⟨_, rfl, rfl, by norm_num [renumber, insertAt, List.enum, List.enumFrom]⟩
      · simp [insertAt, renumber, List.enum, List.enumFrom, List.filter, hF]
      · simp [insertAt, renumber, List.enum, List.enumFrom, List.filter, hG]
    · refine ⟨?_, ?_, ?_, ?_⟩ <;> simp only [generateAdmissionsData] <;>
        rw [if_neg hF, if_neg hG]
      · norm_num [List.range_succ]
      · exact ⟨_, rfl, rfl, rfl⟩
      · simp [List.filter, hF]
      · simp [List.filter, hG]

/-- Claim C8 (counterexample): in the Kent-variant pipeline a faith
school's criteria list replaces the standard list entirely: for the
Roman Catholic school c8School it is Faith, Siblings, Distance, with no
Looked-After-Children criterion at all. -/
theorem c8_criteria_counterexample :
    ((p4EnrichSchool c8School "quick" emptyOracle).admissions.criteria.map
        (fun c => c.criterion)) = ["Faith", "Siblings", "Distance"]
    ∧ ((p4EnrichSchool c8School "quick" emptyOracle).admissions.criteria.all
        (fun c => c.criterion != "Looked After Children")) = true := by
  constructor
  · decide
  · decide

theorem clamp40_pct (x : ℚ) : pct (min 100 (max 40 x)) :=
  ⟨le_min (by norm_num) (le_trans (by norm_num) (le_max_left 40 x)), min_le_left _ _⟩

theorem min100_pct (x : ℚ) (hx : 0 ≤ x) : pct (min 100 x) :=
  ⟨le_min (by norm_num) hx, min_le_left _ _⟩

theorem ofsted_pct (s : School) (t : Nat) :
    parentViewPct (generateSyntheticOfsted s t).1.parentView := by
  rw [generateSyntheticOfsted]
  split_ifs <;>
    first
      | exact trivial
      | exact ⟨clamp40_pct _, clamp40_pct _, clamp40_pct _, clamp40_pct _,
          clamp40_pct _, clamp40_pct _, clamp40_pct _, clamp40_pct _⟩

theorem normalizeEthnicities_white (e : Ethnicities) :
    (normalizeEthnicities e).white = e.white := by
  rw [normalizeEthnicities]; split_ifs <;> rfl

theorem normalizeEthnicities_asian (e : Ethnicities) :
    (normalizeEthnicities e).asian = e.asian := by
  rw [normalizeEthnicities]; split_ifs <;> rfl

theorem normalizeEthnicities_black (e : Ethnicities) :
    (normalizeEthnicities e).black = e.black := by
  rw [normalizeEthnicities]; split_ifs <;> rfl

theorem normalizeEthnicities_mixed (e : Ethnicities) :
    (normalizeEthnicities e).mixed = e.mixed := by
  rw [normalizeEthnicities]; split_ifs <;> rfl

theorem normalizeEthnicities_other_pct (e : Ethnicities)
    (h4 : 0 ≤ e.white + e.asian + e.black + e.mixed) (ho : 0 ≤ e.other) :
    pct (normalizeEthnicities e).other := by
  rw [normalizeEthnicities]
  split_ifs with hT
  · have hr : e.other + (100 - (e.white + e.asian + e.black + e.mixed + e.other))
        = 100 - (e.white + e.asian + e.black + e.mixed) := by ring
    simp only [hr]
    constructor
    · exact le_max_left _ _
    · exact max_le (by norm_num) (by linarith)
  · push_neg at hT
    exact ⟨ho, by linarith⟩

theorem ethnicityDraw_buckets_pct (s : School) (t : Nat) :
    pct (ethnicityDraw s t).1.white ∧ pct (ethnicityDraw s t).1.asian
    ∧ pct (ethnicityDraw s t).1.black ∧ pct (ethnicityDraw s t).1.mixed
    ∧ 0 ≤ (ethnicityDraw s t).1.white + (ethnicityDraw s t).1.asian
        + (ethnicityDraw s t).1.black + (ethnicityDraw s t).1.mixed := by
  rw [ethnicityDraw]
  split_ifs with h1 h2
  · dsimp only
    have ha := seededInt_mem t 25 50 (by norm_num)
    have hb := seededInt_mem (seededInt t 25 50).2 10 25 (by norm_num)
    have hw := seededInt_mem (seededInt (seededInt t 25 50).2 10 25).2 15 30 (by norm_num)
    have hm := seededInt_mem (seededInt (seededInt (seededInt t 25 50).2 10 25).2 15 30).2 5 15 (by norm_num)
    push_cast at ha hb hw hm
    rw [show max (5 : ℚ) (seededInt (seededInt (seededInt t 25 50).2 10 25).2 15 30).1
        = (seededInt (seededInt (seededInt t 25 50).2 10 25).2 15 30).1 from
      max_eq_right (by linarith [hw.1])]
    exact ⟨⟨by linarith [hw.1], by linarith [hw.2]⟩, ⟨by linarith [ha.1], by linarith [ha.2]⟩,
      ⟨by linarith [hb.1], by linarith [hb.2]⟩, ⟨by linarith [hm.1], by linarith [hm.2]⟩,
      by linarith [hw.1, ha.1, hb.1, hm.1]⟩
  · dsimp only
    have hw := seededInt_mem t 55 75 (by norm_num)
    have ha := seededInt_mem (seededInt t 55 75).2 5 15 (by norm_num)
    have hb := seededInt_mem (seededInt (seededInt t 55 75).2 5 15).2 5 15 (by norm_num)
    have hm := seededInt_mem (seededInt (seededInt (seededInt t 55 75).2 5 15).2 5 15).2 5 10 (by norm_num)
    push_cast at ha hb hw hm
    exact ⟨⟨by linarith [hw.1], by linarith [hw.2]⟩, ⟨by linarith [ha.1], by linarith [ha.2]⟩,
      ⟨by linarith [hb.1], by linarith [hb.2]⟩, ⟨by linarith [hm.1], by linarith [hm.2]⟩,
      by linarith [hw.1, ha.1, hb.1, hm.1]⟩
  · dsimp only
    have hw := seededInt_mem t 25 50 (by norm_num)
    have ha := seededInt_mem (seededInt t 25 50).2 12 30 (by norm_num)
    have hb := seededInt_mem (seededInt (seededInt t 25 50).2 12 30).2 12 30 (by norm_num)
    have hm := seededInt_mem (seededInt (seededInt (seededInt t 25 50).2 12 30).2 12 30).2 5 15 (by norm_num)
    push_cast at ha hb hw hm
    exact ⟨⟨by linarith [hw.1], by linarith [hw.2]⟩, ⟨by linarith [ha.1], by linarith [ha.2]⟩,
      ⟨by linarith [hb.1], by linarith [hb.2]⟩, ⟨by linarith [hm.1], by linarith [hm.2]⟩,
      by linarith [hw.1, ha.1, hb.1, hm.1]⟩

theorem seededInt_pct (t : Nat) (lo hi : ℤ) (h0 : 0 ≤ lo) (hh : hi ≤ 100) (hle : lo ≤ hi) :
    pct (seededInt t lo hi).1 := by
  have h := seededInt_mem t lo hi hle
  have h0q : (0 : ℚ) ≤ (lo : ℚ) := by exact_mod_cast h0
  have hhq : (hi : ℚ) ≤ (100 : ℚ) := by exact_mod_cast hh
  exact ⟨le_trans h0q h.1, le_trans h.2 hhq⟩

theorem demographics_pct (s : School) (t : Nat) :
    demographicsPct (generateSyntheticDemographics s t).1 := by
  rw [generateSyntheticDemographics, demographicsPct]
  dsimp only
  refine ⟨?_, ?_, ?_, ?_, ?_, ?_, ?_, ?_⟩
  · split_ifs with hP hN
    · exact ⟨le_refl 0, by norm_num⟩
    · exact seededInt_pct t 5 35 (by norm_num) (by norm_num) (by norm_num)
    · have hp := seededInt_mem t 8 50 (by norm_num)
      have ht := boroughTier_mem s.borough
      push_cast at hp
      constructor
      · exact le_trans (by norm_num) (le_max_left 1 _)
      · refine max_le (by norm_num) ?_
        have h45 := jsRound_le_int ((seededInt t 8 50).1 - boroughTier s.borough * 5) 45
          (by push_cast; linarith [hp.2, ht.1])
        push_cast at h45
        linarith
  · split_ifs <;> exact seededInt_pct _ _ _ (by norm_num) (by norm_num) (by norm_num)
  · split_ifs <;> exact seededInt_pct _ _ _ (by norm_num) (by norm_num) (by norm_num)
  · rw [normalizeEthnicities_white]
    exact (ethnicityDraw_buckets_pct s _).1
  · rw [normalizeEthnicities_asian]
    exact (ethnicityDraw_buckets_pct s _).2.1
  · rw [normalizeEthnicities_black]
    exact (ethnicityDraw_buckets_pct s _).2.2.1
  · rw [normalizeEthnicities_mixed]
    exact (ethnicityDraw_buckets_pct s _).2.2.2.1
  · exact normalizeEthnicities_other_pct _ (ethnicityDraw_buckets_pct s _).2.2.2.2
      (ethnicityDraw_other_nonneg s _)

theorem perf_split (s : School) (t : Nat) : generateSyntheticPerformance s t =
    if s.phase = "Nursery" ∨ s.phase = "Reception" then
      ({ ks2 := none, ks4 := none, ks5 := none }, t)
    else
      ({ ks2 := (perfKS2 s t).1, ks4 := (perfKS4 s (perfKS2 s t).2).1,
         ks5 := (perfKS5 s (perfKS4 s (perfKS2 s t).2).2).1 },
       (perfKS5 s (perfKS4 s (perfKS2 s t).2).2).2) := rfl

theorem minBound_pct (c x : ℚ) (hc : 0 ≤ c) (hc100 : c ≤ 100) (hx : 0 ≤ x) : pct (min c x) :=
  ⟨le_min hc hx, le_trans (min_le_left _ _) hc100⟩

theorem perfKS2_pct (s : School) (u : Nat) : ks2Pct (perfKS2 s u).1 := by
  rw [perfKS2]
  dsimp only
  have ht := boroughTier_mem s.borough
  have hm := ofstedMultiplier_mem s.ofstedRating
  have htb0 : (0 : ℚ) ≤ (boroughTier s.borough - 1) * 2 := by linarith [ht.1]
  have hm0 : (0 : ℚ) ≤ ofstedMultiplier s.ofstedRating := by linarith [hm.1]
  have h1 := seededInt_mem u 60 85 (by norm_num)
  have h2 := seededInt_mem (seededInt u 60 85).2 58 84 (by norm_num)
  have h3 := seededInt_mem (seededInt (seededInt u 60 85).2 58 84).2 56 82 (by norm_num)
  push_cast at h1 h2 h3
  have hbR : (0 : ℚ) ≤ min 100 (jsRound (((seededInt u 60 85).1
      + (boroughTier s.borough - 1) * 2) * ofstedMultiplier s.ofstedRating)) :=
    le_min (by norm_num) (jsRound_nonneg _ (mul_nonneg (by linarith [h1.1]) hm0))
  have hbM : (0 : ℚ) ≤ min 100 (jsRound (((seededInt (seededInt u 60 85).2 58 84).1
      + (boroughTier s.borough - 1) * 2) * ofstedMultiplier s.ofstedRating)) :=
    le_min (by norm_num) (jsRound_nonneg _ (mul_nonneg (by linarith [h2.1]) hm0))
  have hbW : (0 : ℚ) ≤ min 100 (jsRound (((seededInt (seededInt (seededInt u 60 85).2 58 84).2 56 82).1
      + (boroughTier s.borough - 1) * 2) * ofstedMultiplier s.ofstedRating)) :=
    le_min (by norm_num) (jsRound_nonneg _ (mul_nonneg (by linarith [h3.1]) hm0))
  split_ifs with hPh hPr
  · refine ⟨?_, ?_, ?_, ?_⟩
    · exact min100_pct _ (add_nonneg hbR
        (le_trans (by norm_num) (seededInt_mem _ 5 15 (by norm_num)).1))
    · exact min100_pct _ (add_nonneg hbM
        (le_trans (by norm_num) (seededInt_mem _ 5 15 (by norm_num)).1))
    · exact min100_pct _ (add_nonneg hbW
        (le_trans (by norm_num) (seededInt_mem _ 5 15 (by norm_num)).1))
    · refine min100_pct _ (add_nonneg (le_min (by norm_num) (jsRound_nonneg _ ?_))
        (le_trans (by norm_num) (seededInt_mem _ 8 18 (by norm_num)).1))
      exact mul_nonneg (div_nonneg (by linarith) (by norm_num)) (by norm_num)
  · refine ⟨min100_pct _ (jsRound_nonneg _ (mul_nonneg (by linarith [h1.1]) hm0)),
      min100_pct _ (jsRound_nonneg _ (mul_nonneg (by linarith [h2.1]) hm0)),
      min100_pct _ (jsRound_nonneg _ (mul_nonneg (by linarith [h3.1]) hm0)),
      min100_pct _ (jsRound_nonneg _ ?_)⟩
    exact mul_nonneg (div_nonneg (by linarith) (by norm_num)) (by norm_num)
  · exact trivial

theorem perfKS4_pct (s : School) (u : Nat) : ks4Pct (perfKS4 s u).1 := by
  rw [perfKS4]
  dsimp only
  have ht := boroughTier_mem s.borough
  have hm := ofstedMultiplier_mem s.ofstedRating
  have htb0 : (0 : ℚ) ≤ (boroughTier s.borough - 1) * 2 := by linarith [ht.1]
  have hm0 : (0 : ℚ) ≤ ofstedMultiplier s.ofstedRating := by linarith [hm.1]
  split_ifs with hPh hPr
  · exact ⟨min100_pct _ (le_trans (by norm_num) (seededInt_mem _ 60 95 (by norm_num)).1),
      min100_pct _ (le_trans (by norm_num) (seededInt_mem _ 65 92 (by norm_num)).1)⟩
  · refine ⟨min100_pct _ (jsRound_nonneg _ (mul_nonneg ?_ hm0)),
      min100_pct _ (jsRound_nonneg _ (mul_nonneg ?_ hm0))⟩
    · exact add_nonneg (le_trans (by norm_num) (seededInt_mem _ 20 65 (by norm_num)).1) htb0
    · exact add_nonneg (le_trans (by norm_num) (seededInt_mem _ 30 65 (by norm_num)).1) htb0
  · exact trivial

theorem perfKS5_pct (s : School) (u : Nat) : ks5Pct (perfKS5 s u).1 := by
  rw [perfKS5]
  dsimp only
  have ht := boroughTier_mem s.borough
  have hm := ofstedMultiplier_mem s.ofstedRating
  have htb0 : (0 : ℚ) ≤ (boroughTier s.borough - 1) * 2 := by linarith [ht.1]
  have hm0 : (0 : ℚ) ≤ ofstedMultiplier s.ofstedRating := by linarith [hm.1]
  split_ifs with hC hPr
  · exact seededInt_pct _ 25 55 (by norm_num) (by norm_num) (by norm_num)
  · refine minBound_pct 60 _ (by norm_num) (by norm_num) (jsRound_nonneg _ ?_)
    exact add_nonneg (mul_nonneg
      (le_trans (by norm_num) (seededInt_mem _ 8 30 (by norm_num)).1) hm0) htb0
  · exact trivial

theorem seededIntQ_mem (t : Nat) (lo hi : ℚ) (h : lo ≤ hi) :
    lo ≤ (seededIntQ t lo hi).1 ∧ (seededIntQ t lo hi).1 < hi + 1 := by
  have hr0 := randQ_nonneg t
  have hr1 := randQ_lt_one t
  have hw : (0 : ℚ) < hi - lo + 1 := by linarith
  constructor
  · have h0 : (0 : ℤ) ≤ ⌊(randQ t).1 * (hi - lo + 1)⌋ :=
      Int.floor_nonneg.mpr (mul_nonneg hr0 (le_of_lt hw))
    have h0q : (0 : ℚ) ≤ ((⌊(randQ t).1 * (hi - lo + 1)⌋ : ℤ) : ℚ) := by exact_mod_cast h0
    simp only [seededIntQ]
    linarith
  · have hfl : ((⌊(randQ t).1 * (hi - lo + 1)⌋ : ℤ) : ℚ) ≤ (randQ t).1 * (hi - lo + 1) :=
      Int.floor_le _
    have hlt : (randQ t).1 * (hi - lo + 1) < hi - lo + 1 := by nlinarith
    simp only [seededIntQ]
    linarith

theorem exportBoroughTier_mem (b : String) :
    1 ≤ exportBoroughTier b ∧ exportBoroughTier b ≤ 4 := by
  rw [exportBoroughTier]
  cases h : EXPORT_BOROUGH_TIER.lookup b with
  | none => norm_num
  | some v =>
      have hv := lookup_val_mem EXPORT_BOROUGH_TIER b v h
      have : ∀ x ∈ EXPORT_BOROUGH_TIER.map Prod.snd, 1 ≤ x ∧ x ≤ 4 := by decide
      simpa using this v hv

set_option maxHeartbeats 1600000

theorem destList_pct (x1 x2 x3 x4 x5 : ℚ) (h1 : pct x1) (h2 : pct x2) (h3 : pct x3)
    (h4 : pct x4) (h5 : pct x5) :
    ∀ kv ∈ ([("university", x1), ("russellGroup", x2), ("oxbridge", x3),
             ("apprenticeship", x4), ("employment", x5)] : List (String × ℚ)), pct kv.2 := by
  intro kv hkv
  simp only [List.mem_cons, List.not_mem_nil, or_false] at hkv
  rcases hkv with h | h | h | h | h <;> subst h <;> assumption

theorem p4KS5_dest_pct (s : School) (u : Nat) : destinationsPct4 (p4KS5 s u).1 := by
  rw [p4KS5]
  split_ifs with h hp
  · refine destList_pct _ _ _ _ _ ?_ ?_ ?_ ?_ ?_
    · exact minBound_pct 98 _ (by norm_num) (by norm_num)
        (add_nonneg (le_trans (by norm_num) (seededInt_mem _ 40 85 (by norm_num)).1)
          (le_trans (by norm_num) (seededInt_mem _ 10 20 (by norm_num)).1))
    · exact minBound_pct 80 _ (by norm_num) (by norm_num)
        (add_nonneg (le_trans (by norm_num) (seededInt_mem _ 5 45 (by norm_num)).1)
          (le_trans (by norm_num) (seededInt_mem _ 15 30 (by norm_num)).1))
    · exact minBound_pct 40 _ (by norm_num) (by norm_num)
        (add_nonneg (le_trans (by norm_num) (seededInt_mem _ 0 15 (by norm_num)).1)
          (le_trans (by norm_num) (seededInt_mem _ 5 15 (by norm_num)).1))
    · exact seededInt_pct _ 5 25 (by norm_num) (by norm_num) (by norm_num)
    · exact seededInt_pct _ 5 20 (by norm_num) (by norm_num) (by norm_num)
  · refine destList_pct _ _ _ _ _ ?_ ?_ ?_ ?_ ?_
    · exact seededInt_pct _ 40 85 (by norm_num) (by norm_num) (by norm_num)
    · exact seededInt_pct _ 5 45 (by norm_num) (by norm_num) (by norm_num)
    · exact seededInt_pct _ 0 15 (by norm_num) (by norm_num) (by norm_num)
    · exact seededInt_pct _ 5 25 (by norm_num) (by norm_num) (by norm_num)
    · exact seededInt_pct _ 5 20 (by norm_num) (by norm_num) (by norm_num)
  · exact trivial

set_option maxHeartbeats 200000

theorem p4_dest_pct (s : School) (t : Nat) : destinationsPct4 (p4Performance s t).1.ks5 := by
  rw [p4_split]
  split_ifs with h
  · exact trivial
  · exact p4KS5_dest_pct s _

theorem export_dest_pct (d : DbSchool) : destinationsPctE (generatePerformanceData d).ks5 := by
  have ht := exportBoroughTier_mem d.borough
  have htb0 : (0 : ℚ) ≤ (4 - exportBoroughTier d.borough) * 5 := by linarith [ht.2]
  have htb15 : (4 - exportBoroughTier d.borough) * 5 ≤ 15 := by linarith [ht.1]
  rw [generatePerformanceData]
  by_cases h1 : d.phase = "Primary"
  · rw [if_pos h1]
    exact trivial
  · rw [if_neg h1]
    by_cases h2 : d.phase = "Secondary" ∨ d.phase = "All-Through"
    · rw [if_pos h2]
      by_cases h3 : d.has_sixth_form = true
      · rw [if_pos h3]
        dsimp only
        set B : ℚ := (if d.sector = "Private" then (15 : ℚ) else 0)
          + (if d.funding_type = "Grammar" then (12 : ℚ) else 0)
          + (if d.ofsted_rating = "Outstanding" then (5 : ℚ) else 0) with hB
        have hB0 : (0 : ℚ) ≤ B := by rw [hB]; split_ifs <;> norm_num
        have hB32 : B ≤ 32 := by rw [hB]; split_ifs <;> norm_num
        set tb : ℚ := (4 - exportBoroughTier d.borough) * 5 with htb
        refine ⟨?_, ?_, ?_, ?_, ?_⟩
        · exact ⟨le_trans (by linarith)
              (seededIntQ_mem _ _ _ (le_min (by linarith) (by linarith))).1,
            le_trans (le_of_lt
              (seededIntQ_mem _ _ _ (le_min (by linarith) (by linarith))).2)
              (by linarith [min_le_left (98 : ℚ) (75 + tb + B / 2)])⟩
        · exact ⟨le_trans (by linarith)
              (seededIntQ_mem _ _ _ (le_min (by linarith) (by linarith))).1,
            le_trans (le_of_lt
              (seededIntQ_mem _ _ _ (le_min (by linarith) (by linarith))).2)
              (by linarith [min_le_left (80 : ℚ) (30 + tb + B / 2)])⟩
        · split_ifs with hox
          · exact ⟨le_trans (by norm_num) (seededIntQ_mem _ _ _ (by norm_num)).1,
              le_trans (le_of_lt (seededIntQ_mem _ _ _ (by norm_num)).2) (by norm_num)⟩
          · exact ⟨le_trans (by norm_num) (seededIntQ_mem _ _ _ (by norm_num)).1,
              le_trans (le_of_lt (seededIntQ_mem _ _ _ (by norm_num)).2) (by norm_num)⟩
        · exact ⟨le_trans (by norm_num) (seededIntQ_mem _ _ _ (by norm_num)).1,
            le_trans (le_of_lt (seededIntQ_mem _ _ _ (by norm_num)).2) (by norm_num)⟩
        · exact ⟨le_trans (by norm_num) (seededIntQ_mem _ _ _ (by norm_num)).1,
            le_trans (le_of_lt (seededIntQ_mem _ _ _ (by norm_num)).2) (by norm_num)⟩
      · rw [if_neg h3]
        exact trivial
    · rw [if_neg h2]
      exact trivial

/-- Claim C7: every percentage-valued synthetic field lies in [0, 100]:
the eight Parent View scores, the KS2 expected-standard rates, the KS4
EBacc-entry and grade-5 shares, the KS5 AAB share, and FSM, EAL, SEN and
the five ethnicity buckets in demographics; and the KS5 destination
shares, which exist only in the Kent-variant and DB-export performance
generators, also lie in [0, 100] in both. -/
theorem c7_percentage_bounds : ∀ (s : School) (t : Nat) (d : DbSchool),
    parentViewPct (generateSyntheticOfsted s t).1.parentView
    ∧ ks2Pct (generateSyntheticPerformance s t).1.ks2
    ∧ ks4Pct (generateSyntheticPerformance s t).1.ks4
    ∧ ks5Pct (generateSyntheticPerformance s t).1.ks5
    ∧ demographicsPct (generateSyntheticDemographics s t).1
    ∧ destinationsPct4 (p4Performance s t).1.ks5
    ∧ destinationsPctE (generatePerformanceData d).ks5 := by
  intro s t d
  refine ⟨ofsted_pct s t, ?_, ?_, ?_, demographics_pct s t, p4_dest_pct s t,
      export_dest_pct d⟩ <;>
    rw [perf_split] <;> split_ifs <;>
      first
        | exact trivial
        | exact perfKS2_pct s _
        | exact perfKS4_pct s _
        | exact perfKS5_pct s _

/-- Claim C1: the synthetic generation is a deterministic function of
the input record: two enrichment runs of the same record in the same
mode, in environments whose fetches succeed in the same pattern, agree
on the dataSources tags, on every sub-record tagged synthetic, and on
the always-synthetic admissions, demographics and finances sub-records.
With the same environment twice this gives byte-identical outputs. -/
theorem c1_determinism : ∀ (s : School) (m : String) (o o' : FetchOracle),
    fetchPattern s m o = fetchPattern s m o' →
    (enrichSchool s m o).dataSources = (enrichSchool s m o').dataSources
    ∧ ((enrichSchool s m o).dataSources.ofsted = "synthetic" →
        (enrichSchool s m o).ofsted = (enrichSchool s m o').ofsted)
    ∧ ((enrichSchool s m o).dataSources.performance = "synthetic" →
        (enrichSchool s m o).performance = (enrichSchool s m o').performance)
    ∧ ((enrichSchool s m o).dataSources.contact = "synthetic" →
        (enrichSchool s m o).contact = (enrichSchool s m o').contact)
    ∧ (enrichSchool s m o).admissions = (enrichSchool s m o').admissions
    ∧ (enrichSchool s m o).demographics = (enrichSchool s m o').demographics
    ∧ (enrichSchool s m o).finances = (enrichSchool s m o').finances := by
  intro s m o o' hp
  have h1 : (ofstedAttempt m o).isSome = (ofstedAttempt m o').isSome :=
    congrArg Prod.fst hp
  have h2 : (performanceAttempt m o).isSome = (performanceAttempt m o').isSome :=
    congrArg (fun x => x.2.1) hp
  have h3 : (contactAttempt s m o).isSome = (contactAttempt s m o').isSome :=
    congrArg (fun x => x.2.2) hp
  cases hO : ofstedAttempt m o <;> cases hO' : ofstedAttempt m o' <;>
    rw [hO, hO'] at h1 <;>
    cases hP : performanceAttempt m o <;> cases hP' : performanceAttempt m o' <;>
      rw [hP, hP'] at h2 <;>
      cases hC : contactAttempt s m o <;> cases hC' : contactAttempt s m o' <;>
        rw [hC, hC'] at h3 <;>
        first
          | exact Bool.noConfusion h1
          | exact Bool.noConfusion h2
          | exact Bool.noConfusion h3
          | (simp only [enrichSchool, hO, hO', hP, hP', hC, hC']
             repeat' apply And.intro
             all_goals
               first
                 | exact trivial
                 | rfl
                 | (intro h
                    first
                      | exact trivial
                      | rfl
                      | exact absurd h (by decide)))

/-- Witness for C1: two environments that differ in the fetched Ofsted
contents but agree in availability give identical synthetic parts. -/
theorem c1_determinism_witness :
    fetchPattern c2School "enrich" c1OracleA = fetchPattern c2School "enrich" c1OracleB
    ∧ ((enrichSchool c2School "enrich" c1OracleA).dataSources
        = (enrichSchool c2School "enrich" c1OracleB).dataSources
      ∧ (enrichSchool c2School "enrich" c1OracleA).admissions
        = (enrichSchool c2School "enrich" c1OracleB).admissions
      ∧ (enrichSchool c2School "enrich" c1OracleA).demographics
        = (enrichSchool c2School "enrich" c1OracleB).demographics
      ∧ (enrichSchool c2School "enrich" c1OracleA).finances
        = (enrichSchool c2School "enrich" c1OracleB).finances) :=
  ⟨rfl,
   (c1_determinism c2School "enrich" c1OracleA c1OracleB rfl).1,
   (c1_determinism c2School "enrich" c1OracleA c1OracleB rfl).2.2.2.2.1,
   (c1_determinism c2School "enrich" c1OracleA c1OracleB rfl).2.2.2.2.2.1,
   (c1_determinism c2School "enrich" c1OracleA c1OracleB rfl).2.2.2.2.2.2⟩
